import Mathlib

/-!
Verification development for the RetroPlayer render manager
(`xbmc/cores/RetroPlayer/rendering/RPRenderManager.cpp`).

The C++ class `CRPRenderManager` is embedded shallowly: its member state
becomes the structure `MState`, each method becomes a Lean function from
`MState` to `MState` (paired with a trace of externally visible events:
calls into buffer pools, renderers, libswscale and the messenger), and the
external collaborators (buffer pools, renderer factory, libswscale, the GUI
settings object) are gathered in an `Env` record of pure functions and data.

Machine integers (`unsigned int`, `size_t`) are modelled as `Nat`; the
`double m_speed` is modelled as `Rat` (the code only ever compares it for
equality with `0.0`); pixel formats (`AVPixelFormat`) are modelled as `Nat`;
raw byte memory is modelled as `List Nat`; a possibly-null pointer is an
`Option`.
-/

set_option linter.unusedVariables false

namespace RPRM

/-- The `RENDER_STATE` enum of the configuration state machine. -/
inductive RENDER_STATE
  | UNCONFIGURED
  | CONFIGURING
  | CONFIGURED
  | RECONFIGURING
  deriving DecidableEq

open RENDER_STATE

/-- The video-settings profile carried by `CRenderVideoSettings`: the fields
the render manager reads or writes (video filter, view mode, rotation,
scaling method), each abstracted to a `Nat` code. -/
structure VideoSettings where
  videoFilter : Nat
  viewMode : Nat
  rotation : Nat
  scalingMethod : Nat
  deriving DecidableEq

/-- An `IGUIRenderSettings` override object: `HasVideoFilter` /
`HasViewMode` / `HasRotation` flags plus the settings they expose. -/
structure GUIRenderSettings where
  hasVideoFilter : Bool
  hasViewMode : Bool
  hasRotation : Bool
  settings : VideoSettings
  deriving DecidableEq

/-- An instantiated renderer (`CRPBaseRenderer`), identified by `id`, bound
to the pool `poolId`.  `compatible` lists the settings profiles its
`IsCompatible` accepts; `configureOk` is the result its `Configure` returns;
`scalingMethod`, `viewMode`, `rotation` are the renderer-local mutable
fields written by `SetScalingMethod` / `SetViewMode` / `SetRenderRotation`. -/
structure Renderer where
  id : Nat
  poolId : Nat
  compatible : List VideoSettings
  configureOk : Bool
  scalingMethod : Nat
  viewMode : Nat
  rotation : Nat
  deriving DecidableEq

/-- A render buffer (`IRenderBuffer`), identified by `id`, owned by pool
`poolId`.  `mem` is the writable memory returned by `GetMemory` (`none`
models a null pointer), `refCount` the acquire/release reference count,
`loaded` the `IsLoaded` flag, `uploadOk` the result `UploadTexture` would
report. -/
structure RBuf where
  id : Nat
  poolId : Nat
  format : Nat
  width : Nat
  height : Nat
  frameSize : Nat
  refCount : Nat
  loaded : Bool
  uploadOk : Bool
  mem : Option (List Nat)
  deriving DecidableEq

/-- A buffer pool (`IRenderBufferPool`), identified by `id`.
`hasVisibleRenderer` is the result of `HasVisibleRenderer`; `nextBuffer` is
the (deterministic) result of `GetBuffer` (`none` models allocation
failure); `compatible` lists the settings profiles `IsCompatible` accepts. -/
structure Pool where
  id : Nat
  hasVisibleRenderer : Bool
  nextBuffer : Option RBuf
  compatible : List VideoSettings
  deriving DecidableEq

/-- The parameter tuple of a libswscale conversion context, as passed to
`sws_getCachedContext`. -/
structure SwsParams where
  srcW : Nat
  srcH : Nat
  srcFormat : Nat
  dstW : Nat
  dstH : Nat
  dstFormat : Nat
  flags : Nat
  deriving DecidableEq

/-- The `SWS_FAST_BILINEAR` flag of libswscale. -/
def SWS_FAST_BILINEAR : Nat := 1

/-- The `m_scalers` map: destination pixel format to cached conversion
context (a context is identified with its parameter tuple; `none` models a
null `SwsContext*`). -/
abbrev ScalerMap := List (Nat × Option SwsParams)

/-- External collaborators of the render manager, as pure data/functions:
the buffer-pool registry (`RenderBufferManager::GetBufferPools`), the
renderer factory (`CRPProcessInfo::CreateRenderer`, keyed by pool id and
creation settings), the GUI base settings (`m_renderSettings`), the
scaling-method capabilities (`HasScalingMethod` / `GetDefaultScalingMethod`),
the bytes-per-pixel table of `CRenderTranslator`, and libswscale
(`sws_getCachedContext` creation success and the bytes `sws_scale` writes,
given context parameters, the source bytes, and the previous destination
bytes). -/
structure Env where
  pools : List Pool
  factory : List ((Nat × VideoSettings) × Renderer)
  baseSettings : VideoSettings
  supportedScalingMethods : List Nat
  defaultScalingMethod : Nat
  bytesPerPixel : Nat → Nat
  swsCreateOk : SwsParams → Bool
  swsScaleResult : SwsParams → List Nat → List Nat → List Nat

/-- Externally visible events emitted by the render manager: calls into
buffer pools, buffers, renderers, libswscale and the application messenger,
plus the replacement of the render-buffer set and the commit of the
CONFIGURED state. -/
inductive Event
  | getBuffer (poolId size : Nat)
  | writePixels (bufId : Nat)
  | swsScaleCall (bufId : Nat)
  | releaseBuf (bufId : Nat)
  | acquireBuf (bufId : Nat)
  | setBuffersEvt (bufIds : List Nat)
  | postSwitchToFullscreen
  | commitConfigured
  | rendererConfigure (rid format w h : Nat)
  | rendererFrameMove (rid : Nat)
  | rendererFlush (rid : Nat)
  | flushPools
  | uploadTexture (bufId : Nat)
  | bindBuffer (rid bufId : Nat)
  | preRender (rid : Nat)
  | renderFrame (rid : Nat)
  | createRendererEvt (poolId : Nat)
  deriving DecidableEq

/-- The member state of `CRPRenderManager`: configuration fields, the state
machine, the pending-flush flag, the playback speed, the Render Buffer Set
(`m_renderBuffers`), the Cached Frame (`m_cachedFrame` / `m_bHasCachedFrame`),
the conversion-context cache (`m_scalers`) and the renderer set
(`m_renderers`, modelled as a list). -/
structure MState where
  format : Nat
  width : Nat
  height : Nat
  maxWidth : Nat
  maxHeight : Nat
  state : RENDER_STATE
  bFlush : Bool
  speed : Rat
  renderBuffers : List RBuf
  cachedFrame : List Nat
  bHasCachedFrame : Bool
  scalers : ScalerMap
  renderers : List Renderer
  deriving DecidableEq

/-- Model of `std::memcpy(dst, src, n)` over whole byte buffers: the first
`n` bytes of `src` replace the first `n` bytes of `dst`.  For `n` within
both buffers this is exact; an `n` exceeding `dst.length` (which the C
program would execute as an out-of-bounds write) shows up as a result longer
than `dst`. -/
def listMemcpy (dst src : List Nat) (n : Nat) : List Nat :=
  src.take n ++ dst.drop n

/-- Model of `std::memcpy(dst + off, src + srcOff, n)`: an in-place window
copy inside `dst`. -/
def memcpyAt (dst : List Nat) (off : Nat) (src : List Nat) (srcOff n : Nat) : List Nat :=
  dst.take off ++ ((src.drop srcOff).take n) ++ dst.drop (off + n)

/-- The row-by-row copy loop of `CopyFrame`:
`for (i = 0; i < height; i++) memcpy(target + targetStride*i, source + sourceStride*i, widthBytes)`. -/
def copyRows (dst src : List Nat) (dstStride srcStride widthBytes : Nat) : Nat → List Nat
  | 0 => dst
  | h + 1 => memcpyAt (copyRows dst src dstStride srcStride widthBytes h)
      (dstStride * h) src (srcStride * h) widthBytes

/-- Model of `std::vector<uint8_t>::resize(n)`: truncate or zero-pad to
length `n`. -/
def resizeList (l : List Nat) (n : Nat) : List Nat :=
  l.take n ++ List.replicate (n - l.length) 0

/-- Modelled from the spec: `CRenderTranslator::TranslateWidthToBytes` is
declared in `RenderTranslator.h`, which is not under `src/`.  The spec says
the useful row width is "computed from format-specific bytes-per-pixel", so
it is modelled as `width` times an environment-supplied bytes-per-pixel
table; a format with unknown bits-per-pixel yields `0` (the code guards on
`widthBytes > 0`). -/
def translateWidthToBytes (env : Env) (width format : Nat) : Nat :=
  width * env.bytesPerPixel format

/-- Lookup in the `m_scalers` map (`std::map::operator[]` read: a missing
key reads as a null context). -/
def lookupScaler (m : ScalerMap) (fmt : Nat) : Option SwsParams :=
  match m.find? (fun e => e.1 = fmt) with
  | some e => e.2
  | none => none

/-- Store through the `m_scalers` map reference obtained by `operator[]`. -/
def updateScaler (m : ScalerMap) (fmt : Nat) (ctx : Option SwsParams) : ScalerMap :=
  if (m.find? (fun e => e.1 = fmt)).isSome then
    m.map (fun e => if e.1 = fmt then (e.1, ctx) else e)
  else
    m ++ [(fmt, ctx)]

/-- Model of `sws_getCachedContext(old, params...)`: reuse `old` when it was
built for the same parameters, otherwise (attempt to) create a context for
the new parameters. -/
def swsGetCachedContext (env : Env) (old : Option SwsParams) (p : SwsParams) :
    Option SwsParams :=
  match old with
  | some c => if c = p then some c else (if env.swsCreateOk p then some p else none)
  | none => if env.swsCreateOk p then some p else none

/-- `CRPRenderManager::CopyFrame(renderBuffer, format, data, size, width, height)`
(the manager's `m_format` and `m_scalers` are passed in and the updated
buffer and scaler map are returned).  Mirrors the source exactly: the format
comparison and the useful-width computation use the member `m_format`
(`mFormat` here), while the `sws_getCachedContext` source-format argument is
the `format` parameter; a null `GetMemory` result skips the copy;
`ReleaseMemory` (a no-op on the modelled state) always runs. -/
def copyFrame (env : Env) (mFormat : Nat) (scalers : ScalerMap) (rb : RBuf)
    (format : Nat) (data : List Nat) (size width height : Nat) :
    RBuf × ScalerMap × List Event :=
  match rb.mem with
  | none => (rb, scalers, [])
  | some target =>
    let sourceStride := size / height
    let targetStride := rb.frameSize / rb.height
    if mFormat = rb.format then
      if sourceStride = targetStride then
        ({ rb with mem := some (listMemcpy target data size) }, scalers,
          [Event.writePixels rb.id])
      else
        let widthBytes := translateWidthToBytes env width mFormat
        let rows := copyRows target data targetStride sourceStride widthBytes height
        if 0 < widthBytes then
          ({ rb with mem := some rows }, scalers, [Event.writePixels rb.id])
        else (rb, scalers, [])
    else
      let params : SwsParams :=
        ⟨width, height, format, rb.width, rb.height, rb.format, SWS_FAST_BILINEAR⟩
      let ctx := swsGetCachedContext env (lookupScaler scalers rb.format) params
      let scalers1 := updateScaler scalers rb.format ctx
      match ctx with
      | some c =>
          ({ rb with mem := some (env.swsScaleResult c data target) }, scalers1,
            [Event.swsScaleCall rb.id])
      | none => (rb, scalers1, [])

/-- `CRPRenderManager::Flush()`: set the pending-flush flag. -/
def flush (s : MState) : MState :=
  { s with bFlush := true }

/-- `CRPRenderManager::Configure(format, nominalWidth, nominalHeight, maxWidth, maxHeight)`:
record the configuration, transition `UNCONFIGURED → CONFIGURING`, or from
any other state call `Flush()` and transition to `RECONFIGURING`; return
`true`. -/
def configure (s : MState) (format nominalWidth nominalHeight maxWidth maxHeight : Nat) :
    Bool × MState :=
  let s1 := { s with format := format, maxWidth := maxWidth, maxHeight := maxHeight,
                     width := nominalWidth, height := nominalHeight }
  if s1.state = UNCONFIGURED then
    (true, { s1 with state := CONFIGURING })
  else
    (true, { flush s1 with state := RECONFIGURING })

/-- The buffer-collection loop of `AddFrame`: for each pool with a visible
renderer, `GetBuffer(size)` and, on success, `CopyFrame` into it and collect
it. -/
def collectBuffers (env : Env) (mFormat : Nat) (scalers : ScalerMap)
    (data : List Nat) (size width height : Nat) :
    List Pool → List RBuf × ScalerMap × List Event
  | [] => ([], scalers, [])
  | p :: rest =>
    if p.hasVisibleRenderer then
      match p.nextBuffer with
      | some rb =>
        let r1 := copyFrame env mFormat scalers rb mFormat data size width height
        let r2 := collectBuffers env mFormat r1.2.1 data size width height rest
        (r1.1 :: r2.1, r2.2.1, Event.getBuffer p.id size :: r1.2.2 ++ r2.2.2)
      | none => collectBuffers env mFormat scalers data size width height rest
    else collectBuffers env mFormat scalers data size width height rest

/-- The cache-update section of `AddFrame` (the body of
`if (m_speed == 0.0)`), including the move-out / conditional resize /
memcpy / move-back dance on `m_cachedFrame`. -/
def cacheStep (s : MState) (data : List Nat) (size : Nat) : MState :=
  if s.speed = 0 then
    let cf0 := s.cachedFrame
    let s1 := { s with cachedFrame := [] }
    let cf1 := if s1.bHasCachedFrame = false then resizeList cf0 size else cf0
    let s2 := if s1.bHasCachedFrame = false then { s1 with bHasCachedFrame := true } else s1
    if cf1 ≠ [] then { s2 with cachedFrame := listMemcpy cf1 data size } else s2
  else s

/-- `CRPRenderManager::AddFrame(data, size, width, height, rotationCCW)`.
Guards, dimension-mismatch reconfiguration, buffer collection with
`CopyFrame`, the release-old / store-new swap of the Render Buffer Set
(in the source order: the old buffers are released, then the set is
replaced), and the paused-frame cache step. -/
def addFrame (env : Env) (s : MState) (data : Option (List Nat))
    (size width height rotationCCW : Nat) : MState × List Event :=
  if s.bFlush ∨ s.state ≠ CONFIGURED then (s, [])
  else if data = none ∨ size = 0 ∨ width = 0 ∨ height = 0 then (s, [])
  else if width ≠ s.width ∨ height ≠ s.height then
    ((configure s s.format width height s.maxWidth s.maxHeight).2, [])
  else
    let d := data.getD []
    let col := collectBuffers env s.format s.scalers d size width height env.pools
    let swapEvents := s.renderBuffers.map (fun b => Event.releaseBuf b.id) ++
      [Event.setBuffersEvt (col.1.map RBuf.id)]
    let s1 := { s with renderBuffers := col.1, scalers := col.2.1 }
    (cacheStep s1 d size, col.2.2 ++ swapEvents)

/-- `CRPRenderManager::SetSpeed(speed)`. -/
def setSpeed (s : MState) (speed : Rat) : MState :=
  { s with speed := speed }

/-- `CRPRenderManager::HasRenderBuffer(bufferPool)`: whether the Render
Buffer Set holds a buffer of the given pool. -/
def hasRenderBuffer (s : MState) (poolId : Nat) : Bool :=
  s.renderBuffers.any (fun b => b.poolId = poolId)

/-- `CRPRenderManager::CreateRenderBuffer(bufferPool)`: guarded by the flush
flag and the CONFIGURED state; if the pool has no buffer in the set and a
cached frame exists, move the cached frame out, get a buffer sized to it,
`CopyFrame` the cached bytes into it at the configured dimensions, append it
to the set, and move the cached frame back. -/
def createRenderBuffer (env : Env) (s : MState) (p : Pool) : MState × List Event :=
  if s.bFlush ∨ s.state ≠ CONFIGURED then (s, [])
  else if hasRenderBuffer s p.id = false ∧ s.bHasCachedFrame then
    let cf := s.cachedFrame
    let s1 := { s with cachedFrame := [] }
    if cf ≠ [] then
      match p.nextBuffer with
      | some rb =>
        let r1 := copyFrame env s.format s.scalers rb s.format cf cf.length s.width s.height
        ({ s1 with renderBuffers := s1.renderBuffers ++ [r1.1], scalers := r1.2.1,
                   cachedFrame := cf },
          Event.getBuffer p.id cf.length :: r1.2.2)
      | none => ({ s1 with cachedFrame := cf }, [Event.getBuffer p.id cf.length])
    else (s1, [])
  else (s, [])

/-- `CRPRenderManager::GetRenderBuffer(bufferPool)`: guarded by the flush
flag and the CONFIGURED state; find the pool's buffer in the set, `Acquire`
it (the reference count of the shared object rises, in the set as well) and
return it. -/
def getRenderBuffer (s : MState) (poolId : Nat) :
    Option RBuf × MState × List Event :=
  if s.bFlush ∨ s.state ≠ CONFIGURED then (none, s, [])
  else
    match s.renderBuffers.find? (fun b => b.poolId = poolId) with
    | some rb =>
      let rb1 := { rb with refCount := rb.refCount + 1 }
      (some rb1,
        { s with renderBuffers :=
            s.renderBuffers.map (fun b => if b.id = rb.id then rb1 else b) },
        [Event.acquireBuf rb.id])
    | none => (none, s, [])

/-- `CRPRenderManager::CheckFlush()`: if a flush is pending, release every
buffer of the Render Buffer Set, clear the Cached Frame, flush every
renderer and every pool, and clear the flag. -/
def checkFlush (s : MState) : MState × List Event :=
  if s.bFlush then
    ({ s with renderBuffers := [], cachedFrame := [], bHasCachedFrame := false,
              bFlush := false },
      s.renderBuffers.map (fun b => Event.releaseBuf b.id) ++
        s.renderers.map (fun r => Event.rendererFlush r.id) ++ [Event.flushPools])
  else (s, [])

/-- `CRPRenderManager::FrameMove()`: run `CheckFlush`, commit
`CONFIGURING → CONFIGURED` (posting the switch-to-fullscreen message) or
`RECONFIGURING → CONFIGURED` (after re-issuing `Configure` to every existing
renderer), then, if configured, advance every renderer. -/
def frameMove (s : MState) : MState × List Event :=
  let r1 := checkFlush s
  let s1 := r1.1
  let r2 :=
    if s1.state = CONFIGURING then
      ({ s1 with state := CONFIGURED },
        [Event.postSwitchToFullscreen, Event.commitConfigured])
    else if s1.state = RECONFIGURING then
      ({ s1 with state := CONFIGURED },
        s1.renderers.map (fun r => Event.rendererConfigure r.id s1.format s1.width s1.height)
          ++ [Event.commitConfigured])
    else (s1, [])
  let s2 := r2.1
  let e3 := if s2.state = CONFIGURED then s2.renderers.map (fun r => Event.rendererFrameMove r.id)
            else []
  (s2, r1.2 ++ r2.2 ++ e3)

/-- `CRPRenderManager::Deinitialize()`: free the conversion contexts,
release and clear the Render Buffer Set, clear the renderer set, and reset
the state machine. -/
def deinit (s : MState) : MState × List Event :=
  ({ s with scalers := [], renderBuffers := [], renderers := [], state := UNCONFIGURED },
    s.renderBuffers.map (fun b => Event.releaseBuf b.id))

/-- Update the shared render-buffer object `bufId` wherever the Render
Buffer Set references it (a pointer write through a shared `IRenderBuffer*`). -/
def updBuf (s : MState) (bufId : Nat) (f : RBuf → RBuf) : MState :=
  { s with renderBuffers := s.renderBuffers.map (fun b => if b.id = bufId then f b else b) }

/-- `CRPRenderManager::RenderInternal(renderer, bClear, alpha)`: `PreRender`,
obtain the pool's current buffer (materializing one from the cached frame if
none exists), upload it on first use (`SetLoaded(true)` unconditionally
after the attempt), bind it only if the upload reported success, release the
reference, and invoke the draw call. -/
def renderInternal (env : Env) (s : MState) (r : Renderer) (bClear : Bool) (alpha : Nat) :
    MState × List Event :=
  let e0 := [Event.preRender r.id]
  let g1 := getRenderBuffer s r.poolId
  let g2 :=
    match g1.1 with
    | some rb => (some rb, g1.2.1, g1.2.2)
    | none =>
      match env.pools.find? (fun (p : Pool) => p.id = r.poolId) with
      | some p =>
        let c := createRenderBuffer env g1.2.1 p
        let g3 := getRenderBuffer c.1 r.poolId
        (g3.1, g3.2.1, g1.2.2 ++ c.2 ++ g3.2.2)
      | none => (none, g1.2.1, g1.2.2)
  match g2.1 with
  | some rb =>
    let bUploaded := if rb.loaded = false then rb.uploadOk else true
    let eUp := if rb.loaded = false then [Event.uploadTexture rb.id] else []
    let s1 := if rb.loaded = false then updBuf g2.2.1 rb.id (fun b => { b with loaded := true })
              else g2.2.1
    let eBind := if bUploaded then [Event.bindBuffer r.id rb.id] else []
    let s2 := updBuf s1 rb.id (fun b => { b with refCount := b.refCount - 1 })
    (s2, e0 ++ g2.2.2 ++ eUp ++ eBind ++ [Event.releaseBuf rb.id, Event.renderFrame r.id])
  | none => (g2.2.1, e0 ++ g2.2.2 ++ [Event.renderFrame r.id])

/-- `CRPRenderManager::GetEffectiveSettings(settings)`: overlay the
requester's video-filter / view-mode / rotation overrides onto the base GUI
settings, then sanitize the scaling method against what the process actually
supports, falling back to the default. -/
def getEffectiveSettings (env : Env) (ovr : Option GUIRenderSettings) : VideoSettings :=
  let base := env.baseSettings
  let e1 :=
    match ovr with
    | none => base
    | some o =>
      let a := if o.hasVideoFilter then { base with videoFilter := o.settings.videoFilter }
               else base
      let b := if o.hasViewMode then { a with viewMode := o.settings.viewMode } else a
      if o.hasRotation then { b with rotation := o.settings.rotation } else b
  if env.supportedScalingMethods.contains e1.scalingMethod then e1
  else { e1 with scalingMethod := env.defaultScalingMethod }

/-- The setter calls `SetScalingMethod` / `SetViewMode` / `SetRenderRotation`
the outer `GetRenderer` performs on the resolved renderer instance. -/
def applySettings (r : Renderer) (eff : VideoSettings) : Renderer :=
  { r with scalingMethod := eff.scalingMethod, viewMode := eff.viewMode,
           rotation := eff.rotation }

/-- Write through the shared renderer instance `rid` wherever the renderer
set references it. -/
def updRenderer (rs : List Renderer) (rid : Nat) (f : Renderer → Renderer) : List Renderer :=
  rs.map (fun r => if r.id = rid then f r else r)

/-- `CRPProcessInfo::CreateRenderer(bufferPool, renderSettings)`: the
renderer factory, a deterministic lookup keyed by pool id and creation
settings (`none` models a failed creation). -/
def lookupFactory (env : Env) (poolId : Nat) (vs : VideoSettings) : Option Renderer :=
  match env.factory.find? (fun e => e.1 = (poolId, vs)) with
  | some e => some e.2
  | none => none

/-- The search predicate of the renderer loop in the per-pool
`GetRenderer`: the renderer is bound to this pool and its `IsCompatible`
accepts the effective settings. -/
def rendererMatch (p : Pool) (eff : VideoSettings) (x : Renderer) : Bool :=
  x.poolId = p.id ∧ eff ∈ x.compatible

/-- The per-pool `GetRenderer(bufferPool, renderSettings)` overload: reject
an incompatible pool; return the first existing renderer bound to the pool
that accepts the settings; otherwise create one via the factory, and on a
successful `Configure` seed a render buffer for it and register it. -/
def getRendererForPool (env : Env) (s : MState) (p : Pool) (eff : VideoSettings) :
    Option Renderer × MState × List Event :=
  if (p.compatible.contains eff) = false then (none, s, [])
  else
    match s.renderers.find? (rendererMatch p eff) with
    | some r => (some r, s, [])
    | none =>
      match lookupFactory env p.id eff with
      | some r =>
        if r.configureOk then
          let c := createRenderBuffer env s p
          (some r, { c.1 with renderers := c.1.renderers ++ [r] },
            Event.createRendererEvt p.id :: c.2)
        else (none, s, [Event.createRendererEvt p.id])
      | none => (none, s, [Event.createRendererEvt p.id])

/-- The pool-iteration loop of the outer `GetRenderer`: first match wins,
in registration order. -/
def getRendererLoop (env : Env) (s : MState) (eff : VideoSettings) :
    List Pool → Option Renderer × MState × List Event
  | [] => (none, s, [])
  | p :: rest =>
    let r1 := getRendererForPool env s p eff
    match r1.1 with
    | some r => (some r, r1.2.1, r1.2.2)
    | none =>
      let r2 := getRendererLoop env r1.2.1 eff rest
      (r2.1, r2.2.1, r1.2.2 ++ r2.2.2)

/-- `CRPRenderManager::GetRenderer(renderSettings)`: return nothing while
unconfigured; compute the effective settings; iterate the pools; on success
propagate the resolved scaling method / view mode / rotation onto the chosen
renderer instance (both the returned handle and the registered instance). -/
def getRenderer (env : Env) (s : MState) (ovr : Option GUIRenderSettings) :
    Option Renderer × MState × List Event :=
  if s.state = UNCONFIGURED then (none, s, [])
  else
    let eff := getEffectiveSettings env ovr
    let r1 := getRendererLoop env s eff env.pools
    match r1.1 with
    | some r =>
      (some (applySettings r eff),
        { r1.2.1 with renderers := updRenderer r1.2.1.renderers r.id (fun x => applySettings x eff) },
        r1.2.2)
    | none => (none, r1.2.1, r1.2.2)

/-- The Render Buffer Set invariant of the spec: at most one buffer per
buffer pool (pairwise distinct pool ids) and every buffer reference-held
(positive reference count). -/
def bufferSetInv (s : MState) : Prop :=
  s.renderBuffers.Pairwise (fun a b => a.poolId ≠ b.poolId) ∧
    ∀ b ∈ s.renderBuffers, 1 ≤ b.refCount

/-- Whether an event is the replacement of the Render Buffer Set. -/
def isSetBuffersEvt : Event → Bool
  | Event.setBuffersEvt _ => true
  | _ => false

/-- Whether an event is the release of buffer `bufId`. -/
def isReleaseOf (bufId : Nat) : Event → Bool
  | Event.releaseBuf b => b = bufId
  | _ => false

/-- Whether an event is a texture upload of buffer `bufId`. -/
def isUploadOf (bufId : Nat) : Event → Bool
  | Event.uploadTexture b => b = bufId
  | _ => false

/-- Whether an event is a renderer bind (`SetBuffer`). -/
def isBindEvt : Event → Bool
  | Event.bindBuffer _ _ => true
  | _ => false

/-- `firstOccurrence tr p` is the index of the first event satisfying `p`. -/
def firstOccurrence (tr : List Event) (p : Event → Bool) : Option Nat :=
  tr.findIdx? p

/-- `occursBefore tr p q`: both kinds of event occur in `tr`, and the first
`p`-event strictly precedes the first `q`-event. -/
def occursBefore (tr : List Event) (p q : Event → Bool) : Bool :=
  match firstOccurrence tr p, firstOccurrence tr q with
  | some i, some j => i < j
  | _, _ => false

/-- Well-formedness of the buffer-pool registry: pools carry distinct ids,
and a buffer handed out by `GetBuffer` belongs to the pool that produced it
and is already acquired (reference count one). -/
def wfPools (env : Env) : Prop :=
  (env.pools.map Pool.id).Nodup ∧
    ∀ p ∈ env.pools, ∀ rb, p.nextBuffer = some rb → rb.poolId = p.id ∧ rb.refCount = 1

/-- Well-formedness of the renderer factory: a renderer created for a pool
and a settings profile is bound to that pool and accepts that profile. -/
def wfFactory (env : Env) : Prop :=
  ∀ poolId vs r, lookupFactory env poolId vs = some r →
    r.poolId = poolId ∧ vs ∈ r.compatible

/-- A concrete settings profile for concrete instantiations. -/
def vs0 : VideoSettings := ⟨0, 0, 0, 0⟩

/-- A concrete renderer (id 5) bound to pool 1, accepting `vs0`. -/
def renderer0 : Renderer := ⟨5, 1, [vs0], true, 0, 0, 0⟩

/-- A concrete acquired 2×2 render buffer of pool 1 (id 7). -/
def buf7 : RBuf := ⟨7, 1, 0, 2, 2, 4, 1, false, true, some [0, 0, 0, 0]⟩

/-- A concrete acquired 2×2 render buffer of pool 1 (id 8), the one `pool1`
hands out. -/
def buf8 : RBuf := ⟨8, 1, 0, 2, 2, 4, 1, false, true, some [0, 0, 0, 0]⟩

/-- A concrete pool (id 1) with a visible renderer, handing out `buf8`,
compatible with `vs0`. -/
def pool1 : Pool := ⟨1, true, some buf8, [vs0]⟩

/-- An environment with no pools and an empty factory. -/
def env0 : Env := ⟨[], [], vs0, [0], 0, fun _ => 1, fun _ => false, fun _ _ d => d⟩

/-- An environment whose pool registry is `[pool1]` and whose factory
creates `renderer0` for pool 1 under `vs0`. -/
def env1 : Env :=
  ⟨[pool1], [((1, vs0), renderer0)], vs0, [0], 0, fun _ => 1, fun _ => false, fun _ _ d => d⟩

/-- A configured base state: format 0, nominal 2×2, max 2×2, speed 1,
no buffers, no cached frame, no renderers. -/
def st0 : MState := ⟨0, 2, 2, 2, 2, CONFIGURED, false, 1, [], [], false, [], []⟩

/-- `st0` paused (speed set to zero). -/
def stPaused : MState := setSpeed st0 0

/-- Paused scenario, step 1: a 2×2 frame of 4 bytes `[1,2,3,4]` arrives
(no pools in the environment, so only the cache is touched). -/
def c6s1 : MState := (addFrame env0 stPaused (some [1, 2, 3, 4]) 4 2 2 0).1

/-- Paused scenario, step 2: a second 2×2 frame of only 2 bytes `[9,9]`
arrives (smaller stride, same dimensions). -/
def c6s2 : MState := (addFrame env0 c6s1 (some [9, 9]) 2 2 2 0).1

/-- Paused scenario, step 3: `CreateRenderBuffer` successfully creates a
buffer for `pool1` from the cached frame. -/
def c6s3 : MState := (createRenderBuffer env1 c6s2 pool1).1

/-- A configured state whose Render Buffer Set already holds `buf7`. -/
def c5pre : MState := { st0 with renderBuffers := [buf7] }

/-- The event trace of a valid `AddFrame` on `c5pre` through `env1`
(one visible pool handing out `buf8`). -/
def c5trace : List Event := (addFrame env1 c5pre (some [1, 2, 3, 4]) 4 2 2 0).2

/-- Fields of the state `CheckFlush` leaves untouched: the state machine,
the renderer set and the configured format/dimensions. -/
theorem checkFlush_fields (s : MState) :
    (checkFlush s).1.state = s.state ∧ (checkFlush s).1.renderers = s.renderers ∧
      (checkFlush s).1.format = s.format ∧ (checkFlush s).1.width = s.width ∧
      (checkFlush s).1.height = s.height := by
  unfold checkFlush
  split <;> simp

/-- C10: `Configure` returns `true` for every combination of arguments and
every starting state of the state machine; a configuration failure is never
reported through its boolean result. -/
theorem thmC10_configure_returns_true (s : MState) (f w h mw mh : Nat) :
    (configure s f w h mw mh).1 = true := by
  by_cases hU : s.state = UNCONFIGURED <;> simp [configure, flush, hU]

/-- C1: while a flush is pending, or the state machine is not exactly
CONFIGURED, or the data pointer is null, or any of size, width, height is
zero, `AddFrame` is a complete no-op (identical state — so the Render
Buffer Set and the Cached Frame are unchanged and no state transition
occurs — and an empty event trace, so no buffer is obtained from any pool
and no pixel data is written); likewise `CreateRenderBuffer` has no effect
while a flush is pending or the state is not CONFIGURED. -/
theorem thmC1_addFrame_guard_noop (env : Env) (s : MState) (data : Option (List Nat))
    (size width height rot : Nat) (p : Pool) :
    ((s.bFlush ∨ s.state ≠ CONFIGURED ∨ data = none ∨ size = 0 ∨ width = 0 ∨ height = 0) →
      addFrame env s data size width height rot = (s, [])) ∧
    ((s.bFlush ∨ s.state ≠ CONFIGURED) → createRenderBuffer env s p = (s, [])) := by
  constructor
  · intro h
    unfold addFrame
    by_cases h1 : (s.bFlush : Prop) ∨ s.state ≠ CONFIGURED
    · simp [h1]
    · have h2 : data = none ∨ size = 0 ∨ width = 0 ∨ height = 0 := by tauto
      simp [h1, h2]
  · intro h
    unfold createRenderBuffer
    simp [h]

/-- Witness for C1 at a concrete input: `st0` with the flush flag armed. -/
theorem thmC1_witness :
    addFrame env1 (flush st0) (some [1, 2, 3, 4]) 4 2 2 0 = (flush st0, []) ∧
      createRenderBuffer env1 (flush st0) pool1 = (flush st0, []) := by
  have h := thmC1_addFrame_guard_noop env1 (flush st0) (some [1, 2, 3, 4]) 4 2 2 0 pool1
  exact ⟨h.1 (Or.inl (by decide)), h.2 (Or.inl (by decide))⟩

/-- C2: a valid frame arriving in the CONFIGURED state (no flush pending)
whose width or height differs from the configured nominal dimensions writes
no pixel data anywhere (empty event trace, buffer set / cached frame of the
result as in the pre-state) and performs exactly one `Configure` call with
the new dimensions and the current format and maxima, which arms a flush and
moves the state machine to RECONFIGURING, after which `AddFrame` returns. -/
theorem thmC2_addFrame_dimension_mismatch (env : Env) (s : MState) (d : List Nat)
    (size width height rot : Nat) (hF : s.bFlush = false) (hS : s.state = CONFIGURED)
    (hsz : size ≠ 0) (hw : width ≠ 0) (hh : height ≠ 0)
    (hdim : width ≠ s.width ∨ height ≠ s.height) :
    addFrame env s (some d) size width height rot =
      ((configure s s.format width height s.maxWidth s.maxHeight).2, []) ∧
    (configure s s.format width height s.maxWidth s.maxHeight).2 =
      { s with width := width, height := height, bFlush := true, state := RECONFIGURING } := by
  constructor
  · unfold addFrame
    simp [hF, hS, hsz, hw, hh, hdim]
  · unfold configure flush
    simp [hS]

/-- Witness for C2: a 3×2 frame arriving while `st0` is configured for 2×2. -/
theorem thmC2_witness :
    addFrame env1 st0 (some [1, 2, 3, 4, 5, 6]) 6 3 2 0 =
      ((configure st0 st0.format 3 2 st0.maxWidth st0.maxHeight).2, []) ∧
    (configure st0 st0.format 3 2 st0.maxWidth st0.maxHeight).2 =
      { st0 with width := 3, height := 2, bFlush := true, state := RECONFIGURING } := by
  exact thmC2_addFrame_dimension_mismatch env1 st0 [1, 2, 3, 4, 5, 6] 6 3 2 0 rfl rfl
    (by decide) (by decide) (by decide) (Or.inl (by decide))

/-- C3: `Configure` never synchronously sets the state to CONFIGURED: it
records format and dimensions and transitions UNCONFIGURED to CONFIGURING,
or, from any other state, arms a flush and transitions to RECONFIGURING;
only a subsequent `FrameMove` commits the state to CONFIGURED, and on the
RECONFIGURING-to-CONFIGURED commit it re-issues
`Configure(format, width, height)` to every renderer instance existing at
that moment before declaring the state configured (the `rendererConfigure`
events precede the `commitConfigured` event in the trace). -/
theorem thmC3_deferred_commit (s : MState) (f w h mw mh : Nat) :
    (configure s f w h mw mh).2.state ≠ CONFIGURED ∧
    (s.state = UNCONFIGURED → (configure s f w h mw mh).2 =
      { s with format := f, width := w, height := h, maxWidth := mw, maxHeight := mh,
               state := CONFIGURING }) ∧
    (s.state ≠ UNCONFIGURED → (configure s f w h mw mh).2 =
      { s with format := f, width := w, height := h, maxWidth := mw, maxHeight := mh,
               bFlush := true, state := RECONFIGURING }) ∧
    (s.state = CONFIGURING → (frameMove s).1.state = CONFIGURED ∧
      (frameMove s).2 = (checkFlush s).2 ++
        [Event.postSwitchToFullscreen, Event.commitConfigured] ++
        s.renderers.map (fun r => Event.rendererFrameMove r.id)) ∧
    (s.state = RECONFIGURING → (frameMove s).1.state = CONFIGURED ∧
      (frameMove s).2 = (checkFlush s).2 ++
        (s.renderers.map (fun r => Event.rendererConfigure r.id s.format s.width s.height) ++
          [Event.commitConfigured]) ++
        s.renderers.map (fun r => Event.rendererFrameMove r.id)) ∧
    (frameMove (configure s f w h mw mh).2).1.state = CONFIGURED := by
  obtain ⟨h1, h2, h3, h4, h5⟩ := checkFlush_fields s
  refine ⟨?_, ?_, ?_, ?_, ?_, ?_⟩
  · by_cases hU : s.state = UNCONFIGURED <;> simp [configure, flush, hU]
  · intro hU
    simp [configure, flush, hU]
  · intro hU
    simp [configure, flush, hU]
  · intro hC
    simp [frameMove, h1, h2, hC]
  · intro hR
    simp [frameMove, h1, h2, h3, h4, h5, hR]
  · by_cases hU : s.state = UNCONFIGURED
    · obtain ⟨g1, g2, g3, g4, g5⟩ := checkFlush_fields (configure s f w h mw mh).2
      have hs : (configure s f w h mw mh).2.state = CONFIGURING := by
        simp [configure, flush, hU]
      simp [frameMove, g1, hs]
    · obtain ⟨g1, g2, g3, g4, g5⟩ := checkFlush_fields (configure s f w h mw mh).2
      have hs : (configure s f w h mw mh).2.state = RECONFIGURING := by
        simp [configure, flush, hU]
      simp [frameMove, g1, hs]

/-- Witness for C3: the deferred commit observed concretely, from
UNCONFIGURED (first configure) and from CONFIGURED (reconfigure), on the
`st0` sample state. -/
theorem thmC3_witness :
    ((configure { st0 with state := UNCONFIGURED } 0 2 2 2 2).2 =
      { st0 with state := CONFIGURING }) ∧
    ((configure st0 0 2 2 2 2).2 = { st0 with bFlush := true, state := RECONFIGURING }) ∧
    (frameMove { st0 with state := CONFIGURING }).1.state = CONFIGURED ∧
    (frameMove { st0 with state := RECONFIGURING }).2 =
      (checkFlush { st0 with state := RECONFIGURING }).2 ++
        ([] ++ [Event.commitConfigured]) ++ [] := by
  refine ⟨?_, ?_, ?_, ?_⟩
  · exact (thmC3_deferred_commit { st0 with state := UNCONFIGURED } 0 2 2 2 2).2.1 rfl
  · exact (thmC3_deferred_commit st0 0 2 2 2 2).2.2.1 (by decide)
  · exact ((thmC3_deferred_commit { st0 with state := CONFIGURING } 0 2 2 2 2).2.2.2.1 rfl).1
  · exact ((thmC3_deferred_commit { st0 with state := RECONFIGURING } 0 2 2 2 2).2.2.2.2.1 rfl).2

/-- Storing a context under a destination format and reading that format
back yields the stored context (the `m_scalers` map caches per destination
format). -/
theorem lookupScaler_updateScaler (m : ScalerMap) (fmt : Nat) (ctx : Option SwsParams) :
    lookupScaler (updateScaler m fmt ctx) fmt = ctx := by
  induction m with
  | nil => simp [updateScaler, lookupScaler]
  | cons e rest ih =>
    by_cases he : e.1 = fmt
    · simp [updateScaler, lookupScaler, he]
    · by_cases hr : (rest.find? (fun x => x.1 = fmt)).isSome
      · simpa [updateScaler, lookupScaler, he, hr] using ih
      · simpa [updateScaler, lookupScaler, he, hr] using ih

/-- C4: behaviour of `CopyFrame` when the destination's writable memory is
available.  With equal formats and equal strides, one bulk copy of `size`
bytes; with equal formats and differing strides, a row-by-row copy of
`height` rows, each row copying the rows' useful width in bytes —
`TranslateWidthToBytes(width, format)`, the width both strides carry times
the format-specific bytes-per-pixel (source and destination rows hold the
same `width`-pixel image in the same format, so this is the minimum of the
two strides' useful widths, which coincide) — skipped entirely when the
format has no known bytes-per-pixel; with differing formats, a converter
context obtained through `sws_getCachedContext`, cached in the scaler map
keyed by the destination format, parameterized by source/destination
dimensions and formats with the fast-bilinear flag, converts into the
destination's single image plane. -/
theorem thmC4_copyFrame_paths (env : Env) (mFormat : Nat) (scalers : ScalerMap)
    (rb : RBuf) (format : Nat) (data : List Nat) (size width height : Nat)
    (target : List Nat) (hmem : rb.mem = some target) :
    (mFormat = rb.format → size / height = rb.frameSize / rb.height →
      copyFrame env mFormat scalers rb format data size width height =
        ({ rb with mem := some (listMemcpy target data size) }, scalers,
          [Event.writePixels rb.id])) ∧
    (mFormat = rb.format → size / height ≠ rb.frameSize / rb.height →
      0 < translateWidthToBytes env width mFormat →
      copyFrame env mFormat scalers rb format data size width height =
        ({ rb with mem := some (copyRows target data (rb.frameSize / rb.height)
            (size / height) (translateWidthToBytes env width mFormat) height) },
          scalers, [Event.writePixels rb.id])) ∧
    (mFormat = rb.format → size / height ≠ rb.frameSize / rb.height →
      translateWidthToBytes env width mFormat = 0 →
      copyFrame env mFormat scalers rb format data size width height =
        (rb, scalers, [])) ∧
    (mFormat ≠ rb.format →
      (copyFrame env mFormat scalers rb format data size width height).2.1 =
        updateScaler scalers rb.format (swsGetCachedContext env
          (lookupScaler scalers rb.format)
          ⟨width, height, format, rb.width, rb.height, rb.format, SWS_FAST_BILINEAR⟩) ∧
      lookupScaler (copyFrame env mFormat scalers rb format data size width height).2.1
          rb.format =
        swsGetCachedContext env (lookupScaler scalers rb.format)
          ⟨width, height, format, rb.width, rb.height, rb.format, SWS_FAST_BILINEAR⟩ ∧
      (∀ c, swsGetCachedContext env (lookupScaler scalers rb.format)
          ⟨width, height, format, rb.width, rb.height, rb.format, SWS_FAST_BILINEAR⟩ =
            some c →
        copyFrame env mFormat scalers rb format data size width height =
          ({ rb with mem := some (env.swsScaleResult c data target) },
            updateScaler scalers rb.format (some c), [Event.swsScaleCall rb.id])) ∧
      (swsGetCachedContext env (lookupScaler scalers rb.format)
          ⟨width, height, format, rb.width, rb.height, rb.format, SWS_FAST_BILINEAR⟩ =
            none →
        copyFrame env mFormat scalers rb format data size width height =
          (rb, updateScaler scalers rb.format none, []))) := by
  refine ⟨?_, ?_, ?_, ?_⟩
  · intro hf hs
    subst hf
    simp [copyFrame, hmem, hs]
  · intro hf hs hw
    subst hf
    simp [copyFrame, hmem, hs, hw]
  · intro hf hs hw
    subst hf
    simp [copyFrame, hmem, hs, hw]
  · intro hf
    refine ⟨?_, ?_, ?_, ?_⟩
    · cases hc : swsGetCachedContext env (lookupScaler scalers rb.format)
        ⟨width, height, format, rb.width, rb.height, rb.format, SWS_FAST_BILINEAR⟩ <;>
        simp [copyFrame, hmem, hf, hc]
    · cases hc : swsGetCachedContext env (lookupScaler scalers rb.format)
        ⟨width, height, format, rb.width, rb.height, rb.format, SWS_FAST_BILINEAR⟩ <;>
        simp [copyFrame, hmem, hf, hc, lookupScaler_updateScaler]
    · intro c hc
      simp [copyFrame, hmem, hf, hc]
    · intro hc
      simp [copyFrame, hmem, hf, hc]

/-- Witness for C4: the three copy paths exercised concretely on `buf8`
(bulk copy at matching strides; row copy at source stride 1 versus
destination stride 2; fast-bilinear conversion when the member format 1
differs from the buffer format 0). -/
theorem thmC4_witness :
    (copyFrame env1 0 [] buf8 0 [9, 8, 7, 6] 4 2 2 =
      ({ buf8 with mem := some (listMemcpy [0, 0, 0, 0] [9, 8, 7, 6] 4) }, [],
        [Event.writePixels buf8.id])) ∧
    (copyFrame env1 0 [] buf8 0 [9, 8] 2 2 2 =
      ({ buf8 with mem := some (copyRows [0, 0, 0, 0] [9, 8] 2 1 2 2) }, [],
        [Event.writePixels buf8.id])) ∧
    (copyFrame env1 1 [] buf8 1 [9, 8, 7, 6] 4 2 2 =
      (buf8, updateScaler [] buf8.format none, [])) := by
  refine ⟨?_, ?_, ?_⟩
  · exact (thmC4_copyFrame_paths env1 0 [] buf8 0 [9, 8, 7, 6] 4 2 2 [0, 0, 0, 0] rfl).1
      rfl rfl
  · have h := (thmC4_copyFrame_paths env1 0 [] buf8 0 [9, 8] 2 2 2 [0, 0, 0, 0] rfl).2.1
      rfl (by decide) (by decide)
    simpa using h
  · exact ((thmC4_copyFrame_paths env1 1 [] buf8 1 [9, 8, 7, 6] 4 2 2
      [0, 0, 0, 0] rfl).2.2.2 (by decide)).2.2.2 (by decide)

/-- `resize(n)` always yields length `n`. -/
theorem resizeList_length (l : List Nat) (n : Nat) : (resizeList l n).length = n := by
  simp [resizeList]
  omega

/-- Length of the modelled `memcpy`. -/
theorem listMemcpy_length (dst src : List Nat) (n : Nat) :
    (listMemcpy dst src n).length = min n src.length + (dst.length - n) := by
  simp [listMemcpy]

/-- A `memcpy` of `n` bytes into a buffer of exactly `n` bytes yields the
source's first `n` bytes. -/
theorem listMemcpy_exact (dst src : List Nat) (n : Nat) (h : dst.length = n) :
    listMemcpy dst src n = src.take n := by
  simp [listMemcpy, List.drop_eq_nil_of_le (le_of_eq h)]

/-- The main path of `AddFrame` (valid frame, matching dimensions, no flush,
CONFIGURED): collect converted buffers from the visible pools, release the
previous Render Buffer Set, store the new one, then run the pause-cache
step. -/
theorem addFrame_main (env : Env) (s : MState) (d : List Nat) (size width height rot : Nat)
    (hF : s.bFlush = false) (hS : s.state = CONFIGURED) (hsz : size ≠ 0)
    (hw : width = s.width) (hh : height = s.height) (hw0 : width ≠ 0) (hh0 : height ≠ 0) :
    addFrame env s (some d) size width height rot =
      (cacheStep { s with
          renderBuffers := (collectBuffers env s.format s.scalers d size width height env.pools).1,
          scalers := (collectBuffers env s.format s.scalers d size width height env.pools).2.1 }
        d size,
        (collectBuffers env s.format s.scalers d size width height env.pools).2.2 ++
          (s.renderBuffers.map (fun b => Event.releaseBuf b.id) ++
            [Event.setBuffersEvt
              ((collectBuffers env s.format s.scalers d size width height env.pools).1.map
                RBuf.id)])) := by
  subst hw
  subst hh
  simp [addFrame, hF, hS, hsz, hw0, hh0]

/-- The cache step does nothing when not paused. -/
theorem cacheStep_not_paused (s : MState) (d : List Nat) (size : Nat) (h : s.speed ≠ 0) :
    cacheStep s d size = s := by
  simp [cacheStep, h]

/-- The cache step on a fresh cache (flag unset): resize to `size`, set the
flag, copy `size` bytes. -/
theorem cacheStep_fresh (s : MState) (d : List Nat) (size : Nat) (h0 : s.speed = 0)
    (hn : s.bHasCachedFrame = false) (hsz : size ≠ 0) :
    cacheStep s d size =
      { s with cachedFrame := listMemcpy (resizeList s.cachedFrame size) d size,
               bHasCachedFrame := true } := by
  have hne : resizeList s.cachedFrame size ≠ [] := by
    intro hcon
    have := resizeList_length s.cachedFrame size
    rw [hcon] at this
    exact hsz this.symm
  simp [cacheStep, h0, hn, hne]

/-- The cache step on an existing non-empty cache: no resize, copy `size`
bytes in place. -/
theorem cacheStep_existing (s : MState) (d : List Nat) (size : Nat) (h0 : s.speed = 0)
    (hy : s.bHasCachedFrame = true) (hne : s.cachedFrame ≠ []) :
    cacheStep s d size = { s with cachedFrame := listMemcpy s.cachedFrame d size } := by
  simp [cacheStep, h0, hy, hne]

/-- `CopyFrame` never changes a buffer's identity, pool, reference count,
format, dimensions, frame size, loaded flag or upload behaviour — only its
memory. -/
theorem copyFrame_fields (env : Env) (mFormat : Nat) (scalers : ScalerMap) (rb : RBuf)
    (format : Nat) (data : List Nat) (size width height : Nat) :
    (copyFrame env mFormat scalers rb format data size width height).1.id = rb.id ∧
    (copyFrame env mFormat scalers rb format data size width height).1.poolId = rb.poolId ∧
    (copyFrame env mFormat scalers rb format data size width height).1.refCount = rb.refCount ∧
    (copyFrame env mFormat scalers rb format data size width height).1.loaded = rb.loaded ∧
    (copyFrame env mFormat scalers rb format data size width height).1.uploadOk = rb.uploadOk ∧
    (copyFrame env mFormat scalers rb format data size width height).1.format = rb.format ∧
    (copyFrame env mFormat scalers rb format data size width height).1.frameSize = rb.frameSize := by
  cases hm : rb.mem with
  | none => simp [copyFrame, hm]
  | some t =>
    by_cases hf : mFormat = rb.format
    · by_cases hs : size / height = rb.frameSize / rb.height
      · simp [copyFrame, hm, hf, hs]
      · by_cases hw : 0 < translateWidthToBytes env width mFormat
        · subst hf
          simp [copyFrame, hm, hs, hw]
        · subst hf
          simp [copyFrame, hm, hs, hw]
    · cases hc : swsGetCachedContext env (lookupScaler scalers rb.format)
        ⟨width, height, format, rb.width, rb.height, rb.format, SWS_FAST_BILINEAR⟩ <;>
        simp [copyFrame, hm, hf, hc]

/-- C9: the cached-frame buffer is sized exactly once, at the first paused
`AddFrame` while the has-cached-frame flag is unset: its length becomes that
frame's `size`.  Every later paused `AddFrame` copies its full `size` bytes
into the buffer without resizing it, so the buffer's length remains the
first frame's size exactly when the later frame's size does not exceed the
first size (a larger later `size` models an out-of-bounds `memcpy`, visible
here as the cache length growing past its allocation). -/
theorem thmC9_cache_sizing (env : Env) (s : MState) (d : List Nat)
    (size width height rot : Nat) (hF : s.bFlush = false) (hS : s.state = CONFIGURED)
    (hsz : size ≠ 0) (hw : width = s.width) (hh : height = s.height) (hw0 : width ≠ 0)
    (hh0 : height ≠ 0) (hsp : s.speed = 0) (hdl : size ≤ d.length) :
    (s.bHasCachedFrame = false →
      (addFrame env s (some d) size width height rot).1.cachedFrame = d.take size ∧
      (addFrame env s (some d) size width height rot).1.cachedFrame.length = size ∧
      (addFrame env s (some d) size width height rot).1.bHasCachedFrame = true) ∧
    (s.bHasCachedFrame = true → s.cachedFrame ≠ [] →
      (addFrame env s (some d) size width height rot).1.cachedFrame =
        listMemcpy s.cachedFrame d size ∧
      (addFrame env s (some d) size width height rot).1.bHasCachedFrame = true ∧
      ((addFrame env s (some d) size width height rot).1.cachedFrame.length =
          s.cachedFrame.length ↔ size ≤ s.cachedFrame.length)) := by
  rw [addFrame_main env s d size width height rot hF hS hsz hw hh hw0 hh0]
  constructor
  · intro hfl
    rw [cacheStep_fresh _ d size (by simpa using hsp) (by simpa using hfl) hsz]
    refine ⟨?_, ?_, ?_⟩
    · simp [listMemcpy_exact _ _ _ (resizeList_length s.cachedFrame size)]
    · simp [listMemcpy_exact _ _ _ (resizeList_length s.cachedFrame size), hdl]
    · simp
  · intro hfl hne
    rw [cacheStep_existing _ d size (by simpa using hsp) (by simpa using hfl)
      (by simpa using hne)]
    refine ⟨by simp, by simpa using hfl, ?_⟩
    simp only [listMemcpy_length]
    omega

/-- Witness for C9: first paused frame `[1,2,3,4]` sizes the cache to 4;
a later paused frame of 2 bytes leaves length 4 (within bounds since
2 ≤ 4). -/
theorem thmC9_witness :
    ((addFrame env0 stPaused (some [1, 2, 3, 4]) 4 2 2 0).1.cachedFrame = [1, 2, 3, 4] ∧
      (addFrame env0 stPaused (some [1, 2, 3, 4]) 4 2 2 0).1.cachedFrame.length = 4) ∧
    ((addFrame env0 c6s1 (some [9, 9]) 2 2 2 0).1.cachedFrame =
        listMemcpy c6s1.cachedFrame [9, 9] 2 ∧
      ((addFrame env0 c6s1 (some [9, 9]) 2 2 2 0).1.cachedFrame.length =
          c6s1.cachedFrame.length ↔ 2 ≤ c6s1.cachedFrame.length)) := by
  constructor
  · have h := (thmC9_cache_sizing env0 stPaused [1, 2, 3, 4] 4 2 2 0 rfl rfl (by decide)
      rfl rfl (by decide) (by decide) (by decide) (by decide)).1 rfl
    exact ⟨by simpa using h.1, h.2.1⟩
  · have h := (thmC9_cache_sizing env0 c6s1 [9, 9] 2 2 2 0 (by decide) (by decide)
      (by decide) (by decide) (by decide) (by decide) (by decide) (by decide) (by decide)).2
      (by decide) (by decide)
    exact ⟨h.1, h.2.2⟩

/-- C6 counterexample: the claim "the Cached Frame always holds at most one
frame whose bytes equal the most recent paused frame, and is cleared both
when a pending flush is executed and when a render buffer is successfully
created from it in CreateRenderBuffer" is false on the code.  Concretely:
after a paused 4-byte frame `[1,2,3,4]` and then a paused 2-byte frame
`[9,9]`, the cache holds `[9,9,3,4]`, not the most recent frame's bytes;
and after `CreateRenderBuffer` successfully creates a buffer from the cache
(the Render Buffer Set then holds a buffer of the pool), the cache is
`[9,9,3,4]`, not cleared — `CreateRenderBuffer` moves `m_cachedFrame` out
and moves it back. -/
theorem thmC6_counterexample :
    c6s2.cachedFrame = [9, 9, 3, 4] ∧ c6s2.cachedFrame ≠ [9, 9] ∧
    hasRenderBuffer c6s3 pool1.id = true ∧
    c6s3.cachedFrame = [9, 9, 3, 4] ∧ c6s3.cachedFrame ≠ [] := by
  refine ⟨by decide, by decide, by decide, by decide, by decide⟩

/-- C6 (amended): the Cached Frame is populated only when a valid frame
arrives while playback speed is exactly 0.0 (at any other speed `AddFrame`
leaves it untouched); it holds at most one frame, whose bytes equal the
most recent paused frame whenever that frame's size equals the cache's
allocated length (always the case at the first paused frame, which sets the
length); it is cleared when a pending flush is executed; and on a successful
render-buffer creation from it in `CreateRenderBuffer` it is preserved (the
buffer is created and the cache moved back), not cleared. -/
theorem thmC6_cached_frame (env : Env) (s : MState) (data : Option (List Nat))
    (d : List Nat) (size width height rot : Nat) (p : Pool) (rb : RBuf) :
    (s.speed ≠ 0 →
      (addFrame env s data size width height rot).1.cachedFrame = s.cachedFrame ∧
      (addFrame env s data size width height rot).1.bHasCachedFrame = s.bHasCachedFrame) ∧
    (s.bFlush = false → s.state = CONFIGURED → size ≠ 0 → width = s.width →
      height = s.height → width ≠ 0 → height ≠ 0 → s.speed = 0 → size ≤ d.length →
      ((s.bHasCachedFrame = false →
        (addFrame env s (some d) size width height rot).1.cachedFrame = d.take size) ∧
      (s.bHasCachedFrame = true → s.cachedFrame.length = size →
        (addFrame env s (some d) size width height rot).1.cachedFrame = d.take size))) ∧
    (s.bFlush = true → (checkFlush s).1.cachedFrame = [] ∧
      (checkFlush s).1.bHasCachedFrame = false) ∧
    (s.bFlush = false → s.state = CONFIGURED → hasRenderBuffer s p.id = false →
      s.bHasCachedFrame = true → s.cachedFrame ≠ [] → p.nextBuffer = some rb →
      rb.poolId = p.id →
      (createRenderBuffer env s p).1.cachedFrame = s.cachedFrame ∧
      (createRenderBuffer env s p).1.bHasCachedFrame = true ∧
      hasRenderBuffer (createRenderBuffer env s p).1 p.id = true) := by
  refine ⟨?_, ?_, ?_, ?_⟩
  · intro hns
    by_cases h1 : (s.bFlush : Prop) ∨ s.state ≠ CONFIGURED
    · simp [addFrame, h1]
    · by_cases h2 : data = none ∨ size = 0 ∨ width = 0 ∨ height = 0
      · simp [addFrame, h1, h2]
      · by_cases h3 : width ≠ s.width ∨ height ≠ s.height
        · by_cases hU : s.state = UNCONFIGURED <;>
            simp [addFrame, h1, h2, h3, configure, flush, hU]
        · simp [addFrame, h1, h2, h3, cacheStep, hns]
  · intro hF hS hsz hw hh hw0 hh0 hsp hdl
    rw [addFrame_main env s d size width height rot hF hS hsz hw hh hw0 hh0]
    constructor
    · intro hfl
      rw [cacheStep_fresh _ d size (by simpa using hsp) (by simpa using hfl) hsz]
      simp [listMemcpy_exact _ _ _ (resizeList_length s.cachedFrame size)]
    · intro hfl hlen
      have hne : s.cachedFrame ≠ [] := by
        intro hcon
        rw [hcon] at hlen
        exact hsz hlen.symm
      rw [cacheStep_existing _ d size (by simpa using hsp) (by simpa using hfl)
        (by simpa using hne)]
      simp [listMemcpy_exact _ _ _ hlen]
  · intro hB
    simp [checkFlush, hB]
  · intro hF hS hno hflag hcf hpb hpid
    have hcp := (copyFrame_fields env s.format s.scalers rb s.format s.cachedFrame
      s.cachedFrame.length s.width s.height).2.1
    generalize hgen : copyFrame env s.format s.scalers rb s.format s.cachedFrame
      s.cachedFrame.length s.width s.height = cp at hcp
    have heq : createRenderBuffer env s p =
        ({ s with renderBuffers := s.renderBuffers ++ [cp.1], scalers := cp.2.1 },
          Event.getBuffer p.id s.cachedFrame.length :: cp.2.2) := by
      simp [createRenderBuffer, hF, hS, hno, hflag, hcf, hpb, hgen]
    rw [heq]
    refine ⟨rfl, by simpa using hflag, ?_⟩
    simp [hasRenderBuffer, hcp, hpid]

/-- Witness for C6 (amended): concrete checks that a non-paused frame leaves
the cache alone, a paused matching-size frame is cached verbatim, an
executed flush clears the cache, and a successful `CreateRenderBuffer` run
keeps it. -/
theorem thmC6_witness :
    ((addFrame env0 st0 (some [1, 2, 3, 4]) 4 2 2 0).1.cachedFrame = [] ∧
      (addFrame env0 stPaused (some [1, 2, 3, 4]) 4 2 2 0).1.cachedFrame = [1, 2, 3, 4]) ∧
    ((checkFlush (flush c6s1)).1.cachedFrame = [] ∧
      (checkFlush (flush c6s1)).1.bHasCachedFrame = false) ∧
    ((createRenderBuffer env1 c6s1 pool1).1.cachedFrame = c6s1.cachedFrame ∧
      hasRenderBuffer (createRenderBuffer env1 c6s1 pool1).1 pool1.id = true) := by
  refine ⟨⟨?_, ?_⟩, ?_, ?_⟩
  · have h := (thmC6_cached_frame env0 st0 (some [1, 2, 3, 4]) [1, 2, 3, 4] 4 2 2 0
      pool1 buf8).1 (by decide)
    simpa using h.1
  · have h := ((thmC6_cached_frame env0 stPaused (some [1, 2, 3, 4]) [1, 2, 3, 4] 4 2 2 0
      pool1 buf8).2.1 rfl rfl (by decide) rfl rfl (by decide) (by decide) (by decide)
      (by decide)).1 rfl
    simpa using h
  · exact (thmC6_cached_frame env0 (flush c6s1) none [] 0 0 0 0 pool1 buf8).2.2.1 rfl
  · have h := (thmC6_cached_frame env1 c6s1 none [] 0 0 0 0 pool1 buf8).2.2.2 (by decide)
      (by decide) (by decide) (by decide) (by decide) rfl rfl
    exact ⟨h.1, h.2.2⟩

/-- `find?` commutes with mapping a function that preserves the predicate on
the list's members. -/
theorem find?_map_invariant {α : Type} (l : List α) (g : α → α) (p : α → Bool)
    (hp : ∀ x ∈ l, p (g x) = p x) : (l.map g).find? p = (l.find? p).map g := by
  induction l with
  | nil => simp
  | cons a t ih =>
    have ht := ih (fun x hx => hp x (by simp [hx]))
    by_cases ha : p a = true
    · simp [List.find?_cons, hp a (by simp), ha]
    · have ha2 : p a = false := by simpa using ha
      simp [List.find?_cons, hp a (by simp), ha2, ht]

/-- `GetRenderBuffer` when the pool's buffer is in the set: acquire it and
return it. -/
theorem getRenderBuffer_found (s : MState) (pid : Nat) (rb : RBuf) (hF : s.bFlush = false)
    (hS : s.state = CONFIGURED)
    (hfind : s.renderBuffers.find? (fun b => b.poolId = pid) = some rb) :
    getRenderBuffer s pid =
      (some { rb with refCount := rb.refCount + 1 },
        updBuf s rb.id (fun _ => { rb with refCount := rb.refCount + 1 }),
        [Event.acquireBuf rb.id]) := by
  simp [getRenderBuffer, updBuf, hF, hS, hfind]

/-- `RenderInternal` when the pool's buffer exists and is not yet loaded:
acquire, attempt the upload, mark loaded unconditionally, bind only on
success, release. -/
theorem renderInternal_eval_unloaded (env : Env) (s : MState) (r : Renderer) (rb : RBuf)
    (bClear : Bool) (alpha : Nat) (hF : s.bFlush = false) (hS : s.state = CONFIGURED)
    (hfind : s.renderBuffers.find? (fun b => b.poolId = r.poolId) = some rb)
    (hnl : rb.loaded = false) :
    renderInternal env s r bClear alpha =
      (updBuf
        (updBuf (updBuf s rb.id (fun _ => { rb with refCount := rb.refCount + 1 }))
          rb.id (fun b => { b with loaded := true }))
        rb.id (fun b => { b with refCount := b.refCount - 1 }),
       [Event.preRender r.id, Event.acquireBuf rb.id, Event.uploadTexture rb.id] ++
         (if rb.uploadOk then [Event.bindBuffer r.id rb.id] else []) ++
         [Event.releaseBuf rb.id, Event.renderFrame r.id]) := by
  have hg := getRenderBuffer_found s r.poolId rb hF hS hfind
  simp [renderInternal, hg, hnl]

/-- `RenderInternal` when the pool's buffer exists and is already loaded:
acquire, bind unconditionally (no upload attempt), release. -/
theorem renderInternal_eval_loaded (env : Env) (s : MState) (r : Renderer) (rb : RBuf)
    (bClear : Bool) (alpha : Nat) (hF : s.bFlush = false) (hS : s.state = CONFIGURED)
    (hfind : s.renderBuffers.find? (fun b => b.poolId = r.poolId) = some rb)
    (hl : rb.loaded = true) :
    renderInternal env s r bClear alpha =
      (updBuf (updBuf s rb.id (fun _ => { rb with refCount := rb.refCount + 1 }))
        rb.id (fun b => { b with refCount := b.refCount - 1 }),
       [Event.preRender r.id, Event.acquireBuf rb.id, Event.bindBuffer r.id rb.id,
         Event.releaseBuf rb.id, Event.renderFrame r.id]) := by
  have hg := getRenderBuffer_found s r.poolId rb hF hS hfind
  simp [renderInternal, hg, hl]

/-- C7: during render dispatch a texture upload is attempted at most once
per render-buffer instance: on the first dispatch of an unloaded buffer
exactly one upload event occurs and the buffer is marked loaded
unconditionally (the set afterwards holds it with `loaded = true` and an
unchanged reference count), so a failed upload is never retried — on the
failing tick the buffer is not bound (`SetBuffer` skipped) while its
reference is still released, and every subsequent dispatch emits no upload
event (and binds the buffer without retrying). -/
theorem thmC7_upload_at_most_once (env : Env) (s : MState) (r : Renderer) (rb : RBuf)
    (bClear : Bool) (alpha : Nat) (hF : s.bFlush = false) (hS : s.state = CONFIGURED)
    (hNd : (s.renderBuffers.map RBuf.id).Nodup)
    (hfind : s.renderBuffers.find? (fun b => b.poolId = r.poolId) = some rb)
    (hnl : rb.loaded = false) :
    ((renderInternal env s r bClear alpha).2 =
      [Event.preRender r.id, Event.acquireBuf rb.id, Event.uploadTexture rb.id] ++
        (if rb.uploadOk then [Event.bindBuffer r.id rb.id] else []) ++
        [Event.releaseBuf rb.id, Event.renderFrame r.id]) ∧
    ((renderInternal env s r bClear alpha).1.renderBuffers.find?
        (fun b => b.poolId = r.poolId) = some { rb with loaded := true }) ∧
    (rb.uploadOk = false →
      (renderInternal env s r bClear alpha).2.filter isBindEvt = [] ∧
      (renderInternal env s r bClear alpha).2.filter (isReleaseOf rb.id) =
        [Event.releaseBuf rb.id]) ∧
    ((renderInternal env (renderInternal env s r bClear alpha).1 r bClear alpha).2 =
      [Event.preRender r.id, Event.acquireBuf rb.id, Event.bindBuffer r.id rb.id,
        Event.releaseBuf rb.id, Event.renderFrame r.id]) := by
  have hmem : rb ∈ s.renderBuffers := List.mem_of_find?_eq_some hfind
  have hinj : ∀ x ∈ s.renderBuffers, x.id = rb.id → x = rb := by
    intro x hx hxid
    exact List.inj_on_of_nodup_map hNd hx hmem hxid
  have heval := renderInternal_eval_unloaded env s r rb bClear alpha hF hS hfind hnl
  have hfound2 : (renderInternal env s r bClear alpha).1.renderBuffers.find?
      (fun b => b.poolId = r.poolId) = some { rb with loaded := true } := by
    rw [heval]
    simp only [updBuf, List.map_map]
    rw [find?_map_invariant]
    · rw [hfind]
      simp [Function.comp]
    · intro x hx
      by_cases hxid : x.id = rb.id
      · have hx2 := hinj x hx hxid
        subst hx2
        simp [Function.comp]
      · simp [Function.comp, hxid]
  refine ⟨?_, hfound2, ?_, ?_⟩
  · rw [heval]
  · intro hup
    rw [heval, hup]
    constructor <;> simp [isBindEvt, isReleaseOf, List.filter]
  · have hF2 : (renderInternal env s r bClear alpha).1.bFlush = false := by
      rw [heval]
      simpa using hF
    have hS2 : (renderInternal env s r bClear alpha).1.state = CONFIGURED := by
      rw [heval]
      simpa using hS
    rw [renderInternal_eval_loaded env _ r { rb with loaded := true } bClear alpha hF2 hS2
      hfound2 rfl]

/-- Witness for C7: a configured state holding the unloaded buffer `buf7`
whose upload fails (`uploadOk := false`): the first dispatch uploads once and
does not bind; the second dispatch does not retry the upload. -/
theorem thmC7_witness :
    ((renderInternal env0 { st0 with renderBuffers := [{ buf7 with uploadOk := false }] }
        renderer0 true 255).2 =
      [Event.preRender renderer0.id, Event.acquireBuf buf7.id, Event.uploadTexture buf7.id] ++
        [] ++ [Event.releaseBuf buf7.id, Event.renderFrame renderer0.id]) ∧
    ((renderInternal env0 { st0 with renderBuffers := [{ buf7 with uploadOk := false }] }
        renderer0 true 255).2.filter isBindEvt = []) ∧
    ((renderInternal env0 (renderInternal env0
        { st0 with renderBuffers := [{ buf7 with uploadOk := false }] }
        renderer0 true 255).1 renderer0 true 255).2 =
      [Event.preRender renderer0.id, Event.acquireBuf buf7.id,
        Event.bindBuffer renderer0.id buf7.id, Event.releaseBuf buf7.id,
        Event.renderFrame renderer0.id]) := by
  have h := thmC7_upload_at_most_once env0
    { st0 with renderBuffers := [{ buf7 with uploadOk := false }] } renderer0
    { buf7 with uploadOk := false } true 255 rfl rfl (by decide) (by decide) rfl
  refine ⟨?_, ?_, ?_⟩
  · have h1 := h.1
    simpa using h1
  · exact (h.2.2.1 rfl).1
  · have h4 := h.2.2.2
    simpa using h4

/-- The cache step never touches the Render Buffer Set. -/
theorem cacheStep_renderBuffers (s : MState) (d : List Nat) (n : Nat) :
    (cacheStep s d n).renderBuffers = s.renderBuffers := by
  by_cases h0 : s.speed = 0
  · by_cases hfl : s.bHasCachedFrame = false
    · simp [cacheStep, h0, hfl, apply_ite]
    · simp [cacheStep, h0, hfl, apply_ite]
  · simp [cacheStep, h0]

/-- `Configure` never touches the Render Buffer Set. -/
theorem configure_renderBuffers (s : MState) (f w h mw mh : Nat) :
    (configure s f w h mw mh).2.renderBuffers = s.renderBuffers := by
  by_cases hU : s.state = UNCONFIGURED <;> simp [configure, flush, hU]

/-- The buffer-set invariant only depends on the Render Buffer Set. -/
theorem bufferSetInv_congr (s t : MState) (h : s.renderBuffers = t.renderBuffers) :
    bufferSetInv s ↔ bufferSetInv t := by
  simp [bufferSetInv, h]

/-- The buffers collected by `AddFrame`: one per visible pool with a
successful allocation, pairwise-distinct pool ids (given distinct pool ids
in the registry), each still acquired. -/
theorem collectBuffers_wf (env : Env) (mFormat : Nat) (d : List Nat)
    (size width height : Nat) :
    ∀ (ps : List Pool) (scalers : ScalerMap),
    (∀ p ∈ ps, ∀ rb, p.nextBuffer = some rb → rb.poolId = p.id ∧ rb.refCount = 1) →
    (ps.map Pool.id).Nodup →
    ((collectBuffers env mFormat scalers d size width height ps).1.Pairwise
        (fun a b => a.poolId ≠ b.poolId) ∧
      ∀ b ∈ (collectBuffers env mFormat scalers d size width height ps).1,
        1 ≤ b.refCount ∧ b.poolId ∈ ps.map Pool.id) := by
  intro ps
  induction ps with
  | nil =>
    intro scalers hB hN
    simp [collectBuffers]
  | cons p rest ih =>
    intro scalers hB hN
    have hNr : (rest.map Pool.id).Nodup := by
      rw [List.map_cons, List.nodup_cons] at hN
      exact hN.2
    have hPnotin : p.id ∉ rest.map Pool.id := by
      rw [List.map_cons, List.nodup_cons] at hN
      exact hN.1
    have hBr : ∀ q ∈ rest, ∀ rb, q.nextBuffer = some rb → rb.poolId = q.id ∧ rb.refCount = 1 :=
      fun q hq => hB q (List.mem_cons_of_mem p hq)
    by_cases hv : p.hasVisibleRenderer
    · cases hpb : p.nextBuffer with
      | none =>
        have hc : collectBuffers env mFormat scalers d size width height (p :: rest) =
            collectBuffers env mFormat scalers d size width height rest := by
          simp [collectBuffers, hv, hpb]
        rw [hc]
        have h := ih scalers hBr hNr
        exact ⟨h.1, fun b hb => ⟨(h.2 b hb).1, List.mem_cons_of_mem p.id (h.2 b hb).2⟩⟩
      | some rb =>
        have hrb := hB p (List.mem_cons_self p rest) rb hpb
        have hcpf := copyFrame_fields env mFormat scalers rb mFormat d size width height
        have hc : collectBuffers env mFormat scalers d size width height (p :: rest) =
            ((copyFrame env mFormat scalers rb mFormat d size width height).1 ::
              (collectBuffers env mFormat
                (copyFrame env mFormat scalers rb mFormat d size width height).2.1
                d size width height rest).1,
             (collectBuffers env mFormat
                (copyFrame env mFormat scalers rb mFormat d size width height).2.1
                d size width height rest).2.1,
             Event.getBuffer p.id size ::
               (copyFrame env mFormat scalers rb mFormat d size width height).2.2 ++
               (collectBuffers env mFormat
                 (copyFrame env mFormat scalers rb mFormat d size width height).2.1
                 d size width height rest).2.2) := by
          simp [collectBuffers, hv, hpb]
        rw [hc]
        have h := ih (copyFrame env mFormat scalers rb mFormat d size width height).2.1 hBr hNr
        have hpool : (copyFrame env mFormat scalers rb mFormat d size width height).1.poolId =
            p.id := by rw [hcpf.2.1, hrb.1]
        constructor
        · rw [List.pairwise_cons]
          refine ⟨?_, h.1⟩
          intro b hb
          rw [hpool]
          intro hcon
          exact hPnotin (hcon ▸ (h.2 b hb).2)
        · intro b hb
          rcases List.mem_cons.mp hb with hb1 | hb2
          · subst hb1
            refine ⟨?_, by simp [hpool]⟩
            rw [hcpf.2.2.1, hrb.2]
          · exact ⟨(h.2 b hb2).1, List.mem_cons_of_mem p.id (h.2 b hb2).2⟩
    · have hc : collectBuffers env mFormat scalers d size width height (p :: rest) =
          collectBuffers env mFormat scalers d size width height rest := by
        simp [collectBuffers, hv]
      rw [hc]
      have h := ih scalers hBr hNr
      exact ⟨h.1, fun b hb => ⟨(h.2 b hb).1, List.mem_cons_of_mem p.id (h.2 b hb).2⟩⟩

/-- The success path of `CreateRenderBuffer` as one equation (with the
`CopyFrame` result abstracted into `cp`). -/
theorem createRenderBuffer_success (env : Env) (s : MState) (p : Pool) (rb : RBuf)
    (cp : RBuf × ScalerMap × List Event)
    (hF : s.bFlush = false) (hS : s.state = CONFIGURED)
    (hno : hasRenderBuffer s p.id = false) (hflag : s.bHasCachedFrame = true)
    (hcf : s.cachedFrame ≠ []) (hpb : p.nextBuffer = some rb)
    (hcp : copyFrame env s.format s.scalers rb s.format s.cachedFrame
      s.cachedFrame.length s.width s.height = cp) :
    createRenderBuffer env s p =
      ({ s with renderBuffers := s.renderBuffers ++ [cp.1], scalers := cp.2.1 },
        Event.getBuffer p.id s.cachedFrame.length :: cp.2.2) := by
  simp [createRenderBuffer, hF, hS, hno, hflag, hcf, hpb, hcp]

/-- C5 counterexample: the claim that the swap in `AddFrame` "replaces the
set, and only then releases the previous buffers' references" is false on
the code: in the event trace of a valid `AddFrame` on a state holding the
old buffer 7, the release of buffer 7 strictly precedes the replacement of
the Render Buffer Set (the code releases the old buffers first, lines
148–150, and then assigns the new list). -/
theorem thmC5_counterexample :
    occursBefore c5trace isSetBuffersEvt (isReleaseOf 7) = false ∧
    occursBefore c5trace (isReleaseOf 7) isSetBuffersEvt = true := by
  refine ⟨by decide, by decide⟩

/-- C5 (amended): after each of `AddFrame`, `CreateRenderBuffer`,
`GetRenderBuffer`, `CheckFlush` and `Deinitialize` the Render Buffer Set
contains at most one buffer per buffer pool and every buffer in it holds a
positive reference count; the swap in `AddFrame` builds the new list first
(the buffer-collection events come first in the trace), then, under the
buffer lock, releases the previous buffers' references and only then
replaces the set — release before replacement, the reverse of the claimed
order. -/
theorem thmC5_buffer_set_invariant (env : Env) (s : MState) (data : Option (List Nat))
    (d : List Nat) (size width height rot : Nat) (p : Pool) (pid : Nat)
    (hwf : wfPools env)
    (hp : ∀ rb, p.nextBuffer = some rb → rb.poolId = p.id ∧ rb.refCount = 1)
    (hNd : (s.renderBuffers.map RBuf.id).Nodup)
    (hinv : bufferSetInv s) :
    bufferSetInv (addFrame env s data size width height rot).1 ∧
    bufferSetInv (createRenderBuffer env s p).1 ∧
    bufferSetInv (getRenderBuffer s pid).2.1 ∧
    bufferSetInv (checkFlush s).1 ∧
    bufferSetInv (deinit s).1 ∧
    (s.bFlush = false → s.state = CONFIGURED → size ≠ 0 → width = s.width →
      height = s.height → width ≠ 0 → height ≠ 0 →
      (addFrame env s (some d) size width height rot).2 =
        (collectBuffers env s.format s.scalers d size width height env.pools).2.2 ++
          (s.renderBuffers.map (fun b => Event.releaseBuf b.id) ++
            [Event.setBuffersEvt
              ((collectBuffers env s.format s.scalers d size width height env.pools).1.map
                RBuf.id)])) := by
  have hcw := collectBuffers_wf env s.format d size width height env.pools s.scalers
    hwf.2 hwf.1
  refine ⟨?_, ?_, ?_, ?_, ?_, ?_⟩
  · by_cases h1 : (s.bFlush : Prop) ∨ s.state ≠ CONFIGURED
    · simpa [addFrame, h1] using hinv
    · by_cases h2 : data = none ∨ size = 0 ∨ width = 0 ∨ height = 0
      · simpa [addFrame, h1, h2] using hinv
      · by_cases h3 : width ≠ s.width ∨ height ≠ s.height
        · have hrw : (addFrame env s data size width height rot).1.renderBuffers =
              s.renderBuffers := by
            simp [addFrame, h1, h2, h3, configure_renderBuffers]
          rw [bufferSetInv_congr _ s hrw]
          exact hinv
        · have hF : s.bFlush = false := by simpa using (not_or.mp h1).1
          have hS : s.state = CONFIGURED := by simpa using (not_or.mp h1).2
          have hsz : size ≠ 0 := (not_or.mp (not_or.mp h2).2).1
          have hw0 : width ≠ 0 := (not_or.mp (not_or.mp (not_or.mp h2).2).2).1
          have hh0 : height ≠ 0 := (not_or.mp (not_or.mp (not_or.mp h2).2).2).2
          have hw : width = s.width := by simpa using (not_or.mp h3).1
          have hh : height = s.height := by simpa using (not_or.mp h3).2
          rcases data with _ | d2
          · exact absurd rfl (not_or.mp h2).1
          · have hmain := addFrame_main env s d2 size width height rot hF hS hsz hw hh hw0 hh0
            rw [hmain]
            have hcw2 := collectBuffers_wf env s.format d2 size width height
              env.pools s.scalers hwf.2 hwf.1
            constructor
            · show ((cacheStep _ d2 size).renderBuffers).Pairwise _
              rw [cacheStep_renderBuffers]
              exact hcw2.1
            · intro b hb
              rw [cacheStep_renderBuffers] at hb
              exact (hcw2.2 b hb).1
  · by_cases hg : (s.bFlush : Prop) ∨ s.state ≠ CONFIGURED
    · simpa [createRenderBuffer, hg] using hinv
    · have hF : s.bFlush = false := by simpa using (not_or.mp hg).1
      have hS : s.state = CONFIGURED := by simpa using (not_or.mp hg).2
      by_cases hcond : hasRenderBuffer s p.id = false ∧ s.bHasCachedFrame = true
      · by_cases hcf : s.cachedFrame = []
        · have : createRenderBuffer env s p = ({ s with cachedFrame := [] }, []) := by
            simp [createRenderBuffer, hF, hS, hcond.1, hcond.2, hcf]
          rw [this]
          exact (bufferSetInv_congr _ s rfl).mpr hinv
        · cases hpb : p.nextBuffer with
          | none =>
            have : createRenderBuffer env s p =
                ({ s with cachedFrame := s.cachedFrame },
                  [Event.getBuffer p.id s.cachedFrame.length]) := by
              simp [createRenderBuffer, hF, hS, hcond.1, hcond.2, hcf, hpb]
            rw [this]
            exact (bufferSetInv_congr _ s rfl).mpr hinv
          | some rb =>
            rw [createRenderBuffer_success env s p rb _ hF hS hcond.1 hcond.2 hcf hpb
              rfl]
            have hrb := hp rb hpb
            have hcpf := copyFrame_fields env s.format s.scalers rb s.format s.cachedFrame
              s.cachedFrame.length s.width s.height
            have hnob : ∀ b ∈ s.renderBuffers, b.poolId ≠ p.id := by
              intro b hb
              have := hcond.1
              simp [hasRenderBuffer] at this
              exact this b hb
            constructor
            · rw [List.pairwise_append]
              refine ⟨hinv.1, by simp, ?_⟩
              intro a ha b hb
              rw [List.mem_singleton] at hb
              subst hb
              rw [hcpf.2.1, hrb.1]
              exact hnob a ha
            · intro b hb
              rcases List.mem_append.mp hb with hb1 | hb2
              · exact hinv.2 b hb1
              · rw [List.mem_singleton] at hb2
                subst hb2
                rw [hcpf.2.2.1, hrb.2]
          -- end cases
      · have hcond2 : ¬(hasRenderBuffer s p.id = false ∧ (s.bHasCachedFrame : Prop)) := by
          simpa using hcond
        have : createRenderBuffer env s p = (s, []) := by
          simp only [createRenderBuffer]
          rw [if_neg (by simp [hF, hS]), if_neg hcond2]
        rw [this]
        exact hinv
  · by_cases hg : (s.bFlush : Prop) ∨ s.state ≠ CONFIGURED
    · simpa [getRenderBuffer, hg] using hinv
    · have hF : s.bFlush = false := by simpa using (not_or.mp hg).1
      have hS : s.state = CONFIGURED := by simpa using (not_or.mp hg).2
      cases hfind : s.renderBuffers.find? (fun b => b.poolId = pid) with
      | none => simpa [getRenderBuffer, hF, hS, hfind] using hinv
      | some rb =>
        rw [getRenderBuffer_found s pid rb hF hS hfind]
        have hmem : rb ∈ s.renderBuffers := List.mem_of_find?_eq_some hfind
        have hinj : ∀ x ∈ s.renderBuffers, x.id = rb.id → x = rb := by
          intro x hx hxid
          exact List.inj_on_of_nodup_map hNd hx hmem hxid
        constructor
        · show (s.renderBuffers.map _).Pairwise _
          rw [List.pairwise_map]
          refine List.Pairwise.imp_of_mem ?_ hinv.1
          intro a b ha hb hab
          by_cases haid : a.id = rb.id
          · have := hinj a ha haid
            subst this
            by_cases hbid : b.id = a.id
            · have := hinj b hb hbid
              subst this
              simpa using hab
            · simpa [hbid] using hab
          · by_cases hbid : b.id = rb.id
            · have := hinj b hb hbid
              subst this
              simpa [haid] using hab
            · simpa [haid, hbid] using hab
        · intro b hb
          rcases List.mem_map.mp hb with ⟨a, ha, hba⟩
          by_cases haid : a.id = rb.id
          · rw [← hba]
            simp [haid]
          · rw [← hba]
            simp only [haid, if_neg]
            simpa [haid] using hinv.2 a ha
  · unfold checkFlush
    split_ifs <;> simp_all [bufferSetInv]
  · simpa [deinit, bufferSetInv] using trivial
  · intro hF hS hsz hw hh hw0 hh0
    rw [addFrame_main env s d size width height rot hF hS hsz hw hh hw0 hh0]

/-- Witness for C5 (amended): the invariant and the release-then-replace
trace observed concretely on `c5pre` (old buffer 7, new buffer 8). -/
theorem thmC5_witness :
    bufferSetInv (addFrame env1 c5pre (some [1, 2, 3, 4]) 4 2 2 0).1 ∧
    bufferSetInv (createRenderBuffer env1 c5pre pool1).1 ∧
    (addFrame env1 c5pre (some [1, 2, 3, 4]) 4 2 2 0).2 =
      (collectBuffers env1 c5pre.format c5pre.scalers [1, 2, 3, 4] 4 2 2 env1.pools).2.2 ++
        (c5pre.renderBuffers.map (fun b => Event.releaseBuf b.id) ++
          [Event.setBuffersEvt
            ((collectBuffers env1 c5pre.format c5pre.scalers [1, 2, 3, 4] 4 2 2
              env1.pools).1.map RBuf.id)]) := by
  have hwf : wfPools env1 := by
    constructor
    · decide
    · intro q hq rb hrb
      have hq1 : q = pool1 := by simpa [env1] using hq
      subst hq1
      have : rb = buf8 := by
        have := hrb
        simp [pool1] at this
        exact this.symm
      subst this
      decide
  have hp : ∀ rb, pool1.nextBuffer = some rb → rb.poolId = pool1.id ∧ rb.refCount = 1 := by
    intro rb hrb
    have : rb = buf8 := by
      simp [pool1] at hrb
      exact hrb.symm
    subst this
    decide
  have hinv : bufferSetInv c5pre := by
    constructor
    · decide
    · intro b hb
      have : b = buf7 := by simpa [c5pre, st0] using hb
      subst this
      decide
  have h := thmC5_buffer_set_invariant env1 c5pre (some [1, 2, 3, 4]) [1, 2, 3, 4] 4 2 2 0
    pool1 pool1.id hwf hp (by decide) hinv
  exact ⟨h.1, h.2.1, h.2.2.2.2.2 rfl rfl (by decide) rfl rfl (by decide) (by decide)⟩

/-- `CreateRenderBuffer` never touches the renderer set, the state machine
or the flush flag. -/
theorem createRenderBuffer_fields (env : Env) (s : MState) (p : Pool) :
    (createRenderBuffer env s p).1.renderers = s.renderers ∧
    (createRenderBuffer env s p).1.state = s.state ∧
    (createRenderBuffer env s p).1.bFlush = s.bFlush := by
  by_cases hg : (s.bFlush : Prop) ∨ s.state ≠ CONFIGURED
  · simp [createRenderBuffer, hg]
  · by_cases hcond : hasRenderBuffer s p.id = false ∧ s.bHasCachedFrame = true
    · by_cases hcf : s.cachedFrame = []
      · simp [createRenderBuffer, hg, hcond.1, hcond.2, hcf]
      · cases hpb : p.nextBuffer <;>
          simp [createRenderBuffer, hg, hcond.1, hcond.2, hcf, hpb]
    · have hcond2 : ¬(hasRenderBuffer s p.id = false ∧ (s.bHasCachedFrame : Prop)) := by
        simpa using hcond
      simp only [createRenderBuffer]
      rw [if_neg hg, if_neg hcond2]
      exact ⟨rfl, rfl, rfl⟩

/-- The per-pool `GetRenderer` on an incompatible pool. -/
theorem gfp_incompatible (env : Env) (s : MState) (p : Pool) (eff : VideoSettings)
    (h : eff ∉ p.compatible) :
    getRendererForPool env s p eff = (none, s, []) := by
  simp [getRendererForPool, h]

/-- The per-pool `GetRenderer` when an existing compatible renderer is
bound to the pool. -/
theorem gfp_found (env : Env) (s : MState) (p : Pool) (eff : VideoSettings) (r : Renderer)
    (h : eff ∈ p.compatible)
    (hf : s.renderers.find? (rendererMatch p eff) = some r) :
    getRendererForPool env s p eff = (some r, s, []) := by
  simp [getRendererForPool, h, hf]

/-- The per-pool `GetRenderer` creating a renderer: factory success and
successful `Configure` register the renderer after seeding a buffer. -/
theorem gfp_create (env : Env) (s : MState) (p : Pool) (eff : VideoSettings) (r : Renderer)
    (h : eff ∈ p.compatible)
    (hf : s.renderers.find? (rendererMatch p eff) = none)
    (hr : lookupFactory env p.id eff = some r) (hok : r.configureOk = true) :
    getRendererForPool env s p eff =
      (some r,
        { (createRenderBuffer env s p).1 with
            renderers := (createRenderBuffer env s p).1.renderers ++ [r] },
        Event.createRendererEvt p.id :: (createRenderBuffer env s p).2) := by
  simp [getRendererForPool, h, hf, hr, hok]

/-- The per-pool `GetRenderer` when the factory fails or the created
renderer's `Configure` fails. -/
theorem gfp_create_fail (env : Env) (s : MState) (p : Pool) (eff : VideoSettings)
    (h : eff ∈ p.compatible)
    (hf : s.renderers.find? (rendererMatch p eff) = none)
    (hfail : lookupFactory env p.id eff = none ∨
      ∃ r, lookupFactory env p.id eff = some r ∧ r.configureOk = false) :
    getRendererForPool env s p eff = (none, s, [Event.createRendererEvt p.id]) := by
  rcases hfail with hr | ⟨r, hr, hok⟩
  · simp [getRendererForPool, h, hf, hr]
  · simp [getRendererForPool, h, hf, hr, hok]

/-- A failing per-pool `GetRenderer` leaves the state unchanged. -/
theorem gfp_none_state (env : Env) (s : MState) (p : Pool) (eff : VideoSettings)
    (h : (getRendererForPool env s p eff).1 = none) :
    (getRendererForPool env s p eff).2.1 = s := by
  by_cases hc : eff ∈ p.compatible
  · cases hf : s.renderers.find? (rendererMatch p eff) with
    | some r =>
      rw [gfp_found env s p eff r hc hf] at h
      simp at h
    | none =>
      cases hr : lookupFactory env p.id eff with
      | some r =>
        by_cases hok : r.configureOk = true
        · rw [gfp_create env s p eff r hc hf hr hok] at h
          simp at h
        · rw [gfp_create_fail env s p eff hc hf
            (Or.inr ⟨r, hr, by simpa using hok⟩)]
      | none =>
        rw [gfp_create_fail env s p eff hc hf (Or.inl hr)]
  · rw [gfp_incompatible env s p eff hc]

/-- A failing renderer-resolution loop leaves the state unchanged. -/
theorem loop_none_state (env : Env) (eff : VideoSettings) :
    ∀ (ps : List Pool) (s : MState), (getRendererLoop env s eff ps).1 = none →
      (getRendererLoop env s eff ps).2.1 = s := by
  intro ps
  induction ps with
  | nil => intro s h; rfl
  | cons p rest ih =>
    intro s h
    cases hr1 : (getRendererForPool env s p eff).1 with
    | some r =>
      rw [show (getRendererLoop env s eff (p :: rest)).1 = some r by
        simp [getRendererLoop, hr1]] at h
      simp at h
    | none =>
      have hs1 := gfp_none_state env s p eff hr1
      have hloop : getRendererLoop env s eff (p :: rest) =
          ((getRendererLoop env (getRendererForPool env s p eff).2.1 eff rest).1,
            (getRendererLoop env (getRendererForPool env s p eff).2.1 eff rest).2.1,
            (getRendererForPool env s p eff).2.2 ++
              (getRendererLoop env (getRendererForPool env s p eff).2.1 eff rest).2.2) := by
        simp [getRendererLoop, hr1]
      rw [hloop] at h ⊢
      rw [hs1] at h ⊢
      exact ih s h

/-- `applySettings` changes only the renderer-local scaling method, view
mode and rotation. -/
theorem applySettings_fields (r : Renderer) (eff : VideoSettings) :
    (applySettings r eff).id = r.id ∧ (applySettings r eff).poolId = r.poolId ∧
    (applySettings r eff).compatible = r.compatible ∧
    (applySettings r eff).configureOk = r.configureOk := by
  simp [applySettings]

/-- `applySettings` is idempotent. -/
theorem applySettings_idem (r : Renderer) (eff : VideoSettings) :
    applySettings (applySettings r eff) eff = applySettings r eff := rfl

/-- The per-instance setter update is idempotent on the renderer set. -/
theorem updRenderer_idem (rs : List Renderer) (rid : Nat) (eff : VideoSettings) :
    updRenderer (updRenderer rs rid (fun x => applySettings x eff)) rid
        (fun x => applySettings x eff) =
      updRenderer rs rid (fun x => applySettings x eff) := by
  unfold updRenderer
  rw [List.map_map]
  apply List.map_congr_left
  intro a ha
  by_cases hid : a.id = rid
  · simp [Function.comp, hid, applySettings]
  · simp [Function.comp, hid]

/-- The compatibility search predicate is invariant under the setter
update. -/
theorem pred_applySettings_invariant (p : Pool) (eff : VideoSettings) (rid : Nat) :
    ∀ x : Renderer,
      rendererMatch p eff ((fun z : Renderer => if z.id = rid then applySettings z eff else z) x) =
        rendererMatch p eff x := by
  intro x
  by_cases hid : x.id = rid
  · simp [rendererMatch, hid, applySettings]
  · simp [hid]

/-- The setter update distributes over list append. -/
theorem updRenderer_append (l1 l2 : List Renderer) (rid : Nat) (f : Renderer → Renderer) :
    updRenderer (l1 ++ l2) rid f = updRenderer l1 rid f ++ updRenderer l2 rid f := by
  simp [updRenderer]

/-- The compatibility search ignores the setter update. -/
theorem find?_updRenderer_apply (rs : List Renderer) (p : Pool) (eff : VideoSettings)
    (rid : Nat) :
    (updRenderer rs rid (fun x => applySettings x eff)).find? (rendererMatch p eff) =
      (rs.find? (rendererMatch p eff)).map
        (fun x => if x.id = rid then applySettings x eff else x) := by
  unfold updRenderer
  exact find?_map_invariant rs _ _ (fun x _ => pred_applySettings_invariant p eff rid x)

/-- Success analysis of the renderer-resolution loop and its stability: a
resolved renderer accepts the effective settings and is bound to one of the
pools; the loop registers at most that one renderer; and re-running the
loop on any state whose renderer set is the loop's result set after the
per-instance setter update resolves the updated instance with no state
change and no new renderer. -/
theorem loop_success_spec (env : Env) (eff : VideoSettings) (hwfF : wfFactory env) :
    ∀ (ps : List Pool), (ps.map Pool.id).Nodup →
    ∀ (s : MState) (r : Renderer),
    (getRendererLoop env s eff ps).1 = some r →
    (eff ∈ r.compatible ∧ r.poolId ∈ ps.map Pool.id ∧
      (getRendererLoop env s eff ps).2.1.state = s.state ∧
      ((getRendererLoop env s eff ps).2.1.renderers = s.renderers ∨
        (getRendererLoop env s eff ps).2.1.renderers = s.renderers ++ [r]) ∧
      (∀ t : MState,
        t.renderers = updRenderer (getRendererLoop env s eff ps).2.1.renderers r.id
          (fun x => applySettings x eff) →
        (getRendererLoop env t eff ps).1 = some (applySettings r eff) ∧
        (getRendererLoop env t eff ps).2.1 = t)) := by
  intro ps
  induction ps with
  | nil =>
    intro _ s r h
    simp [getRendererLoop] at h
  | cons p rest ih =>
    intro hN s r h
    have hNr : (rest.map Pool.id).Nodup := by
      rw [List.map_cons, List.nodup_cons] at hN
      exact hN.2
    have hPnotin : p.id ∉ rest.map Pool.id := by
      rw [List.map_cons, List.nodup_cons] at hN
      exact hN.1
    cases hr1 : (getRendererForPool env s p eff).1 with
    | some r0 =>
      have hloop : getRendererLoop env s eff (p :: rest) =
          (some r0, (getRendererForPool env s p eff).2.1,
            (getRendererForPool env s p eff).2.2) := by
        simp [getRendererLoop, hr1]
      have hr0 : r0 = r := by
        rw [hloop] at h
        simpa using h
      subst hr0
      by_cases hc : eff ∈ p.compatible
      · cases hf : s.renderers.find? (rendererMatch p eff) with
        | some rf =>
          have hgfp := gfp_found env s p eff rf hc hf
          have hrf : rf = r0 := by
            rw [hgfp] at hr1
            simpa using hr1
          subst hrf
          have hmatch : rendererMatch p eff rf = true := List.find?_some hf
          have hmatch2 : rf.poolId = p.id ∧ eff ∈ rf.compatible := by
            simpa [rendererMatch] using hmatch
          rw [hloop, hgfp]
          refine ⟨hmatch2.2, by simp [hmatch2.1], rfl, Or.inl rfl, ?_⟩
          intro t ht
          have hf2 : t.renderers.find? (rendererMatch p eff) =
              some (applySettings rf eff) := by
            rw [ht, find?_updRenderer_apply, hf]
            simp
          have hgfp2 := gfp_found env t p eff (applySettings rf eff) hc hf2
          constructor
          · simp [getRendererLoop, hgfp2]
          · simp [getRendererLoop, hgfp2]
        | none =>
          cases hrf : lookupFactory env p.id eff with
          | some rfac =>
            by_cases hok : rfac.configureOk = true
            · have hgfp := gfp_create env s p eff rfac hc hf hrf hok
              have hrfac : rfac = r0 := by
                rw [hgfp] at hr1
                simpa using hr1
              subst hrfac
              have hwf2 := hwfF p.id eff rfac hrf
              have hcrb := createRenderBuffer_fields env s p
              rw [hloop, hgfp]
              refine ⟨hwf2.2, by simp [hwf2.1], by simpa using hcrb.2.1,
                Or.inr (by simpa using congrArg (fun l => l ++ [rfac]) hcrb.1), ?_⟩
              intro t ht
              have hset : ({ (createRenderBuffer env s p).1 with
                  renderers := (createRenderBuffer env s p).1.renderers ++
                    [rfac] } : MState).renderers = s.renderers ++ [rfac] := by
                simpa using congrArg (fun l => l ++ [rfac]) hcrb.1
              rw [hset] at ht
              have hf2 : t.renderers.find? (rendererMatch p eff) =
                  some (applySettings rfac eff) := by
                rw [ht, updRenderer_append, List.find?_append, find?_updRenderer_apply, hf]
                have hpred : rendererMatch p eff (applySettings rfac eff) = true := by
                  simp [rendererMatch, applySettings, hwf2.1, hwf2.2]
                simp [updRenderer, hpred]
              have hgfp2 := gfp_found env t p eff (applySettings rfac eff) hc hf2
              constructor
              · simp [getRendererLoop, hgfp2]
              · simp [getRendererLoop, hgfp2]
            · have hgfp := gfp_create_fail env s p eff hc hf
                (Or.inr ⟨rfac, hrf, by simpa using hok⟩)
              rw [hgfp] at hr1
              simp at hr1
          | none =>
            have hgfp := gfp_create_fail env s p eff hc hf (Or.inl hrf)
            rw [hgfp] at hr1
            simp at hr1
      · have hgfp := gfp_incompatible env s p eff hc
        rw [hgfp] at hr1
        simp at hr1
    | none =>
      have hs1 := gfp_none_state env s p eff hr1
      have hloop : (getRendererLoop env s eff (p :: rest)).1 =
            (getRendererLoop env s eff rest).1 ∧
          (getRendererLoop env s eff (p :: rest)).2.1 =
            (getRendererLoop env s eff rest).2.1 := by
        constructor <;> simp [getRendererLoop, hr1, hs1]
      rw [hloop.1] at h
      obtain ⟨ih1, ih2, ih3, ih4, ih5⟩ := ih hNr s r h
      have hrid : r.poolId ≠ p.id := by
        intro hcon
        exact hPnotin (hcon ▸ ih2)
      refine ⟨ih1, by simp [ih2], by rw [hloop.2]; exact ih3,
        by rw [hloop.2]; exact ih4, ?_⟩
      intro t ht
      rw [hloop.2] at ht
      -- the per-pool resolution still fails on `t`
      have hfail_t : getRendererForPool env t p eff = (none, t, (getRendererForPool env s p eff).2.2) := by
        by_cases hc : eff ∈ p.compatible
        · cases hf : s.renderers.find? (rendererMatch p eff) with
          | some rf =>
            have := gfp_found env s p eff rf hc hf
            rw [this] at hr1
            simp at hr1
          | none =>
            have hf2 : t.renderers.find? (rendererMatch p eff) = none := by
              rcases ih4 with h4 | h4
              · rw [ht, h4, find?_updRenderer_apply, hf]
                rfl
              · rw [ht, h4, updRenderer_append, List.find?_append,
                  find?_updRenderer_apply, hf]
                have hpred : rendererMatch p eff (applySettings r eff) = false := by
                  simp [rendererMatch, applySettings, hrid]
                simp [updRenderer, hpred]
            cases hrf : lookupFactory env p.id eff with
            | some rfac =>
              by_cases hok : rfac.configureOk = true
              · have := gfp_create env s p eff rfac hc hf hrf hok
                rw [this] at hr1
                simp at hr1
              · have he1 := gfp_create_fail env s p eff hc hf
                  (Or.inr ⟨rfac, hrf, by simpa using hok⟩)
                have he2 := gfp_create_fail env t p eff hc hf2
                  (Or.inr ⟨rfac, hrf, by simpa using hok⟩)
                rw [he2, he1]
            | none =>
              have he1 := gfp_create_fail env s p eff hc hf (Or.inl hrf)
              have he2 := gfp_create_fail env t p eff hc hf2 (Or.inl hrf)
              rw [he2, he1]
        · have he1 := gfp_incompatible env s p eff hc
          have he2 := gfp_incompatible env t p eff hc
          rw [he2, he1]
      have hrec := ih5 t ht
      constructor
      · simp [getRendererLoop, hfail_t, hrec.1]
      · simp [getRendererLoop, hfail_t, hrec.1, hrec.2]

/-- C8: `GetRenderer` is idempotent for a stable settings profile: with the
same override settings (hence identical effective settings) and the pool
registry unchanged, a second call on the state left by the first returns
the same renderer instance and leaves the whole state — in particular the
renderer set, so no duplicate renderer is created for a pool that already
has a compatible renderer — exactly as the first call left it; by
induction the same holds for every later call of such a sequence.
Hypotheses: the factory creates renderers bound to the requested pool and
compatible with the requested settings, and the pool registry carries
distinct pool ids. -/
theorem thmC8_getRenderer_idempotent (env : Env) (s : MState)
    (ovr : Option GUIRenderSettings) (hwfF : wfFactory env)
    (hNp : (env.pools.map Pool.id).Nodup) :
    (getRenderer env (getRenderer env s ovr).2.1 ovr).1 = (getRenderer env s ovr).1 ∧
    (getRenderer env (getRenderer env s ovr).2.1 ovr).2.1 = (getRenderer env s ovr).2.1 := by
  by_cases hU : s.state = UNCONFIGURED
  · have h1 : getRenderer env s ovr = (none, s, []) := by
      simp [getRenderer, hU]
    refine ⟨?_, ?_⟩ <;> simp [h1]
  · cases hl : (getRendererLoop env s (getEffectiveSettings env ovr) env.pools).1 with
    | none =>
      have hst := loop_none_state env (getEffectiveSettings env ovr) env.pools s hl
      have h1 : getRenderer env s ovr =
          (none, s,
            (getRendererLoop env s (getEffectiveSettings env ovr) env.pools).2.2) := by
        simp [getRenderer, hU, hl, hst]
      refine ⟨?_, ?_⟩ <;> simp [h1]
    | some r =>
      obtain ⟨hcompat, hmem, hstate, hrens, hstep⟩ :=
        loop_success_spec env (getEffectiveSettings env ovr) hwfF env.pools hNp s r hl
      have h1 : getRenderer env s ovr =
          (some (applySettings r (getEffectiveSettings env ovr)),
            { (getRendererLoop env s (getEffectiveSettings env ovr) env.pools).2.1 with
                renderers := updRenderer
                  (getRendererLoop env s (getEffectiveSettings env ovr) env.pools).2.1.renderers
                  r.id (fun x => applySettings x (getEffectiveSettings env ovr)) },
            (getRendererLoop env s (getEffectiveSettings env ovr) env.pools).2.2) := by
        simp [getRenderer, hU, hl]
      have hstep2 := hstep (getRenderer env s ovr).2.1 (by rw [h1])
      have hU2 : ¬(getRenderer env s ovr).2.1.state = UNCONFIGURED := by
        rw [h1]
        show ¬(getRendererLoop env s (getEffectiveSettings env ovr) env.pools).2.1.state =
          UNCONFIGURED
        rw [hstate]
        exact hU
      have h2 : getRenderer env (getRenderer env s ovr).2.1 ovr =
          (some (applySettings (applySettings r (getEffectiveSettings env ovr))
              (getEffectiveSettings env ovr)),
            { (getRenderer env s ovr).2.1 with
                renderers := updRenderer (getRenderer env s ovr).2.1.renderers
                  (applySettings r (getEffectiveSettings env ovr)).id
                  (fun x => applySettings x (getEffectiveSettings env ovr)) },
            (getRendererLoop env (getRenderer env s ovr).2.1
              (getEffectiveSettings env ovr) env.pools).2.2) := by
        generalize hT : (getRenderer env s ovr).2.1 = tset at hstep2 hU2 ⊢
        simp [getRenderer, hU2, hstep2.1, hstep2.2]
      constructor
      · rw [h2]
        show some (applySettings (applySettings r (getEffectiveSettings env ovr))
            (getEffectiveSettings env ovr)) = (getRenderer env s ovr).1
        rw [applySettings_idem, h1]
      · rw [h2]
        show ({ (getRenderer env s ovr).2.1 with
            renderers := updRenderer (getRenderer env s ovr).2.1.renderers
              (applySettings r (getEffectiveSettings env ovr)).id
              (fun x => applySettings x (getEffectiveSettings env ovr)) } : MState) =
          (getRenderer env s ovr).2.1
        have hid : (applySettings r (getEffectiveSettings env ovr)).id = r.id := rfl
        rw [hid]
        have hren : updRenderer (getRenderer env s ovr).2.1.renderers r.id
            (fun x => applySettings x (getEffectiveSettings env ovr)) =
            (getRenderer env s ovr).2.1.renderers := by
          conv_lhs => rw [show (getRenderer env s ovr).2.1.renderers =
            updRenderer
              (getRendererLoop env s (getEffectiveSettings env ovr) env.pools).2.1.renderers
              r.id (fun x => applySettings x (getEffectiveSettings env ovr)) by rw [h1]]
          rw [updRenderer_idem]
          rw [h1]
        rw [hren]

/-- Witness for C8: on `env1` and the configured `st0` (no renderer yet) the
first `GetRenderer(null)` creates `renderer0` for pool 1 and the second
call returns the same instance with an unchanged state. -/
theorem thmC8_witness :
    (getRenderer env1 (getRenderer env1 st0 none).2.1 none).1 =
      (getRenderer env1 st0 none).1 ∧
    (getRenderer env1 (getRenderer env1 st0 none).2.1 none).2.1 =
      (getRenderer env1 st0 none).2.1 ∧
    (getRenderer env1 st0 none).1 = some renderer0 ∧
    (getRenderer env1 st0 none).2.1.renderers = [renderer0] := by
  have hwfF : wfFactory env1 := by
    intro pid vs r h
    by_cases hk : ((1 : Nat), vs0) = (pid, vs)
    · have hr : r = renderer0 := by
        simp [lookupFactory, env1, hk] at h
        exact h.symm
      subst hr
      have h1 : pid = 1 := (Prod.mk.injEq _ _ _ _ |>.mp hk).1.symm
      have h2 : vs = vs0 := (Prod.mk.injEq _ _ _ _ |>.mp hk).2.symm
      subst h1
      subst h2
      exact ⟨rfl, by decide⟩
    · exfalso
      simp [lookupFactory, env1, hk] at h
  have h := thmC8_getRenderer_idempotent env1 st0 none hwfF (by decide)
  refine ⟨h.1, h.2, by decide, by decide⟩

end RPRM
